import Mathlib

/-!
# DuckovGuard: a verification development for `Native/src/duckov_guard.cpp`

The engine of `duckov_guard.cpp` is embedded as pure functions over an explicit
engine state.

* Machine integers are natural numbers, reduced modulo `2^w` wherever the C++
  arithmetic can wrap.
* A `(pointer, length)` pair is the list of the `length` bytes it designates.
* Every read of `get_current_time_ms()` is an explicit argument of the
  operation that performs it.
* `float` is IEEE-754 binary32 with round-to-nearest-even, stored as its bit
  pattern (`F32`).
* The bytes produced by `std::random_device` are an explicit argument.
-/

namespace DuckovGuard

/-! ## Machine integers -/

/-- Truncation to `uint8_t`. -/
def u8 (n : Nat) : Nat := n % 2 ^ 8

/-- Truncation to `uint32_t`. -/
def u32 (n : Nat) : Nat := n % 2 ^ 32

/-- Truncation to `uint64_t`. -/
def u64 (n : Nat) : Nat := n % 2 ^ 64

/-- Wrapping `uint64_t` subtraction `a - b`. -/
def sub_u64 (a b : Nat) : Nat := (u64 a + (2 ^ 64 - u64 b)) % 2 ^ 64

/-- Unary minus on a `uint64_t`. -/
def neg_u64 (a : Nat) : Nat := (2 ^ 64 - u64 a) % 2 ^ 64

/-- The cast `(int64_t)x` of a `uint64_t`: two's complement reinterpretation. -/
def to_i64 (n : Nat) : Int :=
  if u64 n < 2 ^ 63 then (u64 n : Int) else (u64 n : Int) - 2 ^ 64

/-- Conversion of an `int64_t` to `uint64_t` (value modulo `2^64`). -/
def i64_to_u64 (i : Int) : Nat := (i % 2 ^ 64).toNat

/-- Two's complement `int64_t` subtraction `a - b`. -/
def sub_i64 (a b : Int) : Int := to_i64 (i64_to_u64 (a - b))

/-! ## IEEE-754 binary32

A finite binary32 value is an integer multiple of `2^-149`; magnitudes are
carried exactly as natural numbers in that unit and rounded once per operation.
-/

/-- A C++ `float`, as its 32-bit pattern. -/
structure F32 where
  bits : Nat
deriving DecidableEq, Repr

/-- The value denoted by a bit pattern. The magnitude of a finite value is in
units of `2^-149`. -/
inductive FVal where
  | nan
  | inf (neg : Bool)
  | fin (neg : Bool) (mag : Nat)
deriving DecidableEq, Repr

/-- Base-2 logarithm by repeated halving; the first argument bounds the number
of halvings. -/
def ilog2_fuel : Nat → Nat → Nat
  | 0, _ => 0
  | f + 1, n => if n < 2 then 0 else ilog2_fuel f (n / 2) + 1

/-- The position of the highest set bit of `n` (and `0` for `n = 0`). -/
def ilog2 (n : Nat) : Nat := ilog2_fuel n n

/-- Integer square root by binary search on the bits of the result; the first
argument is the number of result bits still to be decided. -/
def isqrt_bits : Nat → Nat → Nat → Nat
  | 0, _, r => r
  | k + 1, n, r =>
    let c := r + 2 ^ k
    if c * c ≤ n then isqrt_bits k n c else isqrt_bits k n r

/-- The floor of the square root of `n`. -/
def isqrt (n : Nat) : Nat := isqrt_bits (ilog2 n / 2 + 1) n 0

/-- The integer nearest to `n / d`, ties to even. -/
def rne (n d : Nat) : Nat :=
  let q := n / d
  let r := n % d
  if 2 * r < d then q
  else if d < 2 * r then q + 1
  else if q % 2 = 0 then q else q + 1

/-- The magnitude `n / d` (in units of `2^-149`) rounded to 24 significant bits,
or to a multiple of the unit when it is below `2^24` units. -/
def round_mag (n d : Nat) : Nat :=
  let q := n / d
  let e := if q < 2 ^ 24 then 0 else ilog2 q - 23
  rne n (d * 2 ^ e) * 2 ^ e

/-- The square root of the magnitude `m` (in units of `2^-149`), rounded like
`round_mag`. -/
def sqrt_mag (m : Nat) : Nat :=
  let n := m * 2 ^ 149
  let s := isqrt n
  let e := if s < 2 ^ 24 then 0 else ilog2 s - 23
  let t := isqrt (n / 4 ^ e)
  let lhs := 4 * n
  let rhs := (2 * t + 1) ^ 2 * 4 ^ e
  if lhs < rhs then t * 2 ^ e
  else if rhs < lhs then (t + 1) * 2 ^ e
  else if t % 2 = 0 then t * 2 ^ e else (t + 1) * 2 ^ e

/-- Exponent and fraction fields of an already rounded magnitude; magnitudes
beyond the largest finite value become infinity. -/
def encode_mag (c : Nat) : Nat :=
  if c < 2 ^ 23 then c
  else
    let e := ilog2 c - 23
    if 254 ≤ e then 0x7F800000
    else (e + 1) * 2 ^ 23 + (c / 2 ^ e - 2 ^ 23)

/-- The sign bit of a pattern. -/
def sign_bit (neg : Bool) : Nat := if neg then 2 ^ 31 else 0

namespace F32

/-- Decode a bit pattern. -/
def val (f : F32) : FVal :=
  let neg := (f.bits / 2 ^ 31) % 2 == 1
  let e := (f.bits / 2 ^ 23) % 256
  let m := f.bits % 2 ^ 23
  if e = 255 then (if m = 0 then FVal.inf neg else FVal.nan)
  else if e = 0 then FVal.fin neg m
  else FVal.fin neg ((2 ^ 23 + m) * 2 ^ (e - 1))

/-- The quiet NaN produced by an invalid operation. -/
def qnan : F32 := ⟨0x7FC00000⟩

/-- Signed infinity. -/
def infinity (neg : Bool) : F32 := ⟨sign_bit neg + 0x7F800000⟩

/-- The float nearest to `± n / d` units of `2^-149`. -/
def round (neg : Bool) (n d : Nat) : F32 :=
  ⟨sign_bit neg + encode_mag (round_mag n d)⟩

/-- A decimal literal `n / d`, as the compiler rounds it. -/
def lit (n d : Nat) : F32 := round false (n * 2 ^ 149) d

/-- Sign flip. -/
def neg (a : F32) : F32 :=
  ⟨if (a.bits / 2 ^ 31) % 2 == 1 then a.bits % 2 ^ 31 else a.bits % 2 ^ 31 + 2 ^ 31⟩

/-- Binary32 addition. -/
def add (a b : F32) : F32 :=
  match a.val, b.val with
  | FVal.nan, _ => qnan
  | _, FVal.nan => qnan
  | FVal.inf s, FVal.inf t => if s = t then infinity s else qnan
  | FVal.inf s, FVal.fin _ _ => infinity s
  | FVal.fin _ _, FVal.inf t => infinity t
  | FVal.fin s m, FVal.fin t k =>
    let x : Int := if s then -(m : Int) else (m : Int)
    let y : Int := if t then -(k : Int) else (k : Int)
    let z := x + y
    if z = 0 then ⟨sign_bit (s && t)⟩
    else round (decide (z < 0)) z.natAbs 1

/-- Binary32 subtraction. -/
def sub (a b : F32) : F32 := add a (neg b)

/-- Binary32 multiplication. -/
def mul (a b : F32) : F32 :=
  match a.val, b.val with
  | FVal.nan, _ => qnan
  | _, FVal.nan => qnan
  | FVal.inf s, FVal.inf t => infinity (s != t)
  | FVal.inf s, FVal.fin t k => if k = 0 then qnan else infinity (s != t)
  | FVal.fin s m, FVal.inf t => if m = 0 then qnan else infinity (s != t)
  | FVal.fin s m, FVal.fin t k => round (s != t) (m * k) (2 ^ 149)

/-- Binary32 division. -/
def div (a b : F32) : F32 :=
  match a.val, b.val with
  | FVal.nan, _ => qnan
  | _, FVal.nan => qnan
  | FVal.inf _, FVal.inf _ => qnan
  | FVal.inf s, FVal.fin t _ => infinity (s != t)
  | FVal.fin s _, FVal.inf t => ⟨sign_bit (s != t)⟩
  | FVal.fin s m, FVal.fin t k =>
    if k = 0 then (if m = 0 then qnan else infinity (s != t))
    else round (s != t) (m * 2 ^ 149) k

/-- Binary32 square root (`std::sqrt(float)`). -/
def sqrt (a : F32) : F32 :=
  match a.val with
  | FVal.nan => qnan
  | FVal.inf s => if s then qnan else infinity false
  | FVal.fin s m =>
    if m = 0 then ⟨sign_bit s⟩
    else if s then qnan
    else ⟨encode_mag (sqrt_mag m)⟩

/-- The position of a non-NaN value on the extended number line. -/
def key : FVal → Option Int
  | FVal.nan => none
  | FVal.inf s => some (if s then -(2 ^ 300 : Int) else (2 ^ 300 : Int))
  | FVal.fin s m => some (if s then -(m : Int) else (m : Int))

/-- The C++ comparison `a < b` on floats: false when either side is NaN. -/
def lt (a b : F32) : Bool :=
  match key a.val, key b.val with
  | some x, some y => decide (x < y)
  | _, _ => false

/-- The C++ comparison `a <= b` on floats: false when either side is NaN. -/
def le (a b : F32) : Bool :=
  match key a.val, key b.val with
  | some x, some y => decide (x ≤ y)
  | _, _ => false

/-- The C++ comparison `a > b` on floats. -/
def gt (a b : F32) : Bool := lt b a

/-- The float `0`, also the conversion of the integer literal `0`. -/
def zero : F32 := ⟨0⟩

end F32

/-! ## Data model (`duckov_guard.h`) -/

/-- The struct `PacketHeader`. -/
structure PacketHeader where
  player_id : Nat
  sequence : Nat
  timestamp : Nat
  checksum : Nat
  signature : List Nat
deriving DecidableEq, Repr

/-- The struct `GameAction`. -/
structure GameAction where
  entity_id : Int
  pos_x : F32
  pos_y : F32
  pos_z : F32
  health : F32
  damage : F32
  action_type : Nat
deriving DecidableEq, Repr

/-- The text of a `details` buffer: a string constant, or the format string and
the arguments handed to `snprintf` (the rendering of `%.2f` is left symbolic). -/
inductive Details where
  | text (s : String)
  | fmt (format : String) (args : List F32)
deriving DecidableEq, Repr

/-- The struct `ViolationReport`. -/
structure ViolationReport where
  player_id : Nat
  violation_type : Nat
  severity : Nat
  timestamp : Nat
  details : Details
deriving DecidableEq, Repr

/-- Enumerator of `ViolationType`. -/
def VIOLATION_NONE : Nat := 0
/-- Enumerator of `ViolationType`. -/
def VIOLATION_SPEED_HACK : Nat := 1
/-- Enumerator of `ViolationType`. -/
def VIOLATION_DAMAGE_HACK : Nat := 2
/-- Enumerator of `ViolationType`. -/
def VIOLATION_POSITION_HACK : Nat := 3
/-- Enumerator of `ViolationType`. -/
def VIOLATION_HEALTH_HACK : Nat := 4
/-- Enumerator of `ViolationType`. -/
def VIOLATION_SEQUENCE_HACK : Nat := 5
/-- Enumerator of `ViolationType`. -/
def VIOLATION_SIGNATURE_INVALID : Nat := 6
/-- Enumerator of `ViolationType`. -/
def VIOLATION_TIMESTAMP_INVALID : Nat := 7
/-- Enumerator of `ViolationType`. -/
def VIOLATION_RATE_LIMIT : Nat := 8

/-- The value of `sizeof(PacketHeader)` for the declaration in `duckov_guard.h`.
The struct carries no packing pragma, so its `uint64_t` member aligns it to 8
bytes: the 52 bytes of fields, at offsets 0, 4, 8, 16 and 20, are followed by 4
bytes of padding. -/
def sizeof_PacketHeader : Nat := 56

/-- A little-endian unsigned integer read from bytes. -/
def le_decode : List Nat → Nat
  | [] => 0
  | b :: rest => u8 b + 256 * le_decode rest

/-- The `n` little-endian bytes of an unsigned integer. -/
def le_encode : Nat → Nat → List Nat
  | 0, _ => []
  | n + 1, v => v % 256 :: le_encode n (v / 256)

/-- The effect of `memcpy(out_header, data, sizeof(PacketHeader))` on a
little-endian machine. -/
def parse_header (data : List Nat) : PacketHeader :=
  { player_id := le_decode ((data.drop 0).take 4)
    sequence := le_decode ((data.drop 4).take 4)
    timestamp := le_decode ((data.drop 8).take 8)
    checksum := le_decode ((data.drop 16).take 4)
    signature := (data.drop 20).take 32 }

/-- The 52 bytes of the fields of a header, as scenario 1 copies them in front
of a payload. -/
def header_bytes (h : PacketHeader) : List Nat :=
  le_encode 4 h.player_id ++ le_encode 4 h.sequence ++ le_encode 8 h.timestamp
    ++ le_encode 4 h.checksum ++ h.signature.take 32

/-- The struct `PlayerState`. -/
structure PlayerState where
  player_id : Nat
  session_key : List Nat
  key_len : Nat
  last_x : F32
  last_y : F32
  last_z : F32
  last_position_time : Nat
  last_health : F32
  last_sequence : Nat
  last_packet_time : Nat
  violations : List ViolationReport
  packet_count_per_second : Nat
  packet_window_start : Nat
  max_speed : F32
  max_damage : F32
  rate_limit : Nat
deriving DecidableEq, Repr

/-- The globals of the translation unit: `g_players`, `g_server_key`,
`g_server_key_len` and `g_initialized`. -/
structure Engine where
  g_players : Nat → Option PlayerState
  g_server_key : List Nat
  g_server_key_len : Nat
  g_initialized : Bool

/-- The state of the globals at program start. -/
def Engine.initial : Engine :=
  { g_players := fun _ => none
    g_server_key := List.replicate 64 0
    g_server_key_len := 0
    g_initialized := false }

/-- Write a player state back into the map (the effect of mutating through
`it->second`, or of `g_players[player_id] = state`). -/
def Engine.set (s : Engine) (player_id : Nat) (p : PlayerState) : Engine :=
  { s with g_players := fun k => if k = player_id then some p else s.g_players k }

/-- The effect of `g_players.erase(player_id)`. -/
def Engine.erase (s : Engine) (player_id : Nat) : Engine :=
  { s with g_players := fun k => if k = player_id then none else s.g_players k }

/-- `DEFAULT_MAX_SPEED = 15.0f`. -/
def DEFAULT_MAX_SPEED : F32 := F32.lit 15 1
/-- `DEFAULT_MAX_DAMAGE = 500.0f`. -/
def DEFAULT_MAX_DAMAGE : F32 := F32.lit 500 1
/-- `DEFAULT_RATE_LIMIT = 100`. -/
def DEFAULT_RATE_LIMIT : Nat := 100
/-- `POSITION_TOLERANCE = 0.5f`. -/
def POSITION_TOLERANCE : F32 := F32.lit 5 10
/-- `TIMESTAMP_TOLERANCE_MS = 5000`, a `uint64_t`. -/
def TIMESTAMP_TOLERANCE_MS : Nat := 5000

/-! ## Primitives -/

/-- The loop of `fnv1a_hash`, over the bytes still to be read. -/
def fnv1a_loop : List Nat → Nat → Nat
  | [], hash => hash
  | b :: rest, hash => fnv1a_loop rest (u32 ((hash ^^^ u8 b) * 16777619))

/-- The function `fnv1a_hash(data, len)`. -/
def fnv1a_hash (data : List Nat) : Nat := fnv1a_loop data 2166136261

/-- The loop of `compute_signature`: the first argument counts the iterations
left, `i` is the loop variable and `out_sig` holds the `i` bytes written so
far. -/
def signature_loop (h2 : Nat) : Nat → Nat → Nat → List Nat → List Nat
  | 0, _, _, out_sig => out_sig
  | n + 1, i, h1, out_sig =>
    let mix := h1 ^^^ u32 (h2 <<< (i % 16)) ^^^ u32 (i * 0x9E3779B9)
    let out_sig := out_sig ++ [u8 (mix ^^^ (mix >>> 8) ^^^ (mix >>> 16) ^^^ (mix >>> 24))]
    signature_loop h2 n (i + 1) (fnv1a_hash out_sig) out_sig

/-- The function `compute_signature(data, len, key, key_len, out_sig)`,
returning `out_sig`. -/
def compute_signature (data key : List Nat) : List Nat :=
  signature_loop (fnv1a_hash key) 32 0 (fnv1a_hash data) []

/-- The function `verify_signature`: `memcmp` over the 32 signature bytes. -/
def verify_signature (data key sig : List Nat) : Bool :=
  decide (compute_signature data key = sig.take 32)

/-- The function `add_violation`; `t` is its clock reading. -/
def add_violation (player : PlayerState) (type severity : Nat) (details : Details)
    (t : Nat) : PlayerState :=
  { player with
    violations := player.violations ++
      [{ player_id := player.player_id, violation_type := type, severity := severity,
         timestamp := t, details := details }] }

/-! ## Lifecycle and registry -/

/-- The function `dg_init(server_key, key_len)`. -/
def dg_init (s : Engine) (server_key : List Nat) : Nat × Engine :=
  if s.g_initialized then (0, s)
  else
    let key_len := if server_key.length > 64 then 64 else server_key.length
    (1, { s with
          g_server_key := server_key.take key_len ++ s.g_server_key.drop key_len
          g_server_key_len := key_len
          g_initialized := true })

/-- The function `dg_shutdown()`. -/
def dg_shutdown (s : Engine) : Engine :=
  { s with g_players := fun _ => none, g_initialized := false }

/-- The function `dg_register_player(player_id, session_key, key_len)`. A null
`session_key` is `none`; `rnd i` is the `i`-th output of the Mersenne twister;
`t1` and `t2` are the two clock readings. -/
def dg_register_player (s : Engine) (t1 t2 : Nat) (rnd : Nat → Nat) (player_id : Nat)
    (session_key : Option (List Nat)) : Nat × Engine :=
  if !s.g_initialized then (0, s)
  else
    let key_len := match session_key with
      | some k => k.length
      | none => 0
    let state_key_len := if key_len > 32 then 32 else key_len
    let keyed : List Nat × Nat :=
      match session_key with
      | some k =>
        if key_len > 0 then
          (k.take state_key_len ++ List.replicate (32 - state_key_len) 0, state_key_len)
        else ((List.range 32).map (fun i => rnd i % 256), 32)
      | none => ((List.range 32).map (fun i => rnd i % 256), 32)
    let state : PlayerState :=
      { player_id := player_id
        session_key := keyed.1
        key_len := keyed.2
        last_x := F32.zero
        last_y := F32.zero
        last_z := F32.zero
        last_position_time := t1
        last_health := F32.lit 100 1
        last_sequence := 0
        last_packet_time := 0
        violations := []
        packet_count_per_second := 0
        packet_window_start := t2
        max_speed := DEFAULT_MAX_SPEED
        max_damage := DEFAULT_MAX_DAMAGE
        rate_limit := DEFAULT_RATE_LIMIT }
    (1, s.set player_id state)

/-- The function `dg_unregister_player(player_id)`. -/
def dg_unregister_player (s : Engine) (player_id : Nat) : Engine :=
  s.erase player_id

/-! ## Packet pipeline -/

/-- The condition of the timestamp test in `dg_validate_packet`,
`time_diff < -TIMESTAMP_TOLERANCE_MS || time_diff > TIMESTAMP_TOLERANCE_MS`.
`time_diff` is an `int64_t` and `TIMESTAMP_TOLERANCE_MS` a `uint64_t`, so the
unary minus is taken in `uint64_t` and both comparisons convert `time_diff` to
`uint64_t`. -/
def timestamp_rejected (time_diff : Int) : Bool :=
  decide (i64_to_u64 time_diff < neg_u64 TIMESTAMP_TOLERANCE_MS) ||
    decide (i64_to_u64 time_diff > TIMESTAMP_TOLERANCE_MS)

/-- The rate-window step of `dg_validate_packet`: the window is restarted when
`now - player.packet_window_start > 1000` (a `uint64_t` difference), then
`packet_count_per_second` is incremented. -/
def window_step (player : PlayerState) (now : Nat) : PlayerState :=
  let player :=
    if sub_u64 now player.packet_window_start > 1000 then
      { player with packet_count_per_second := 0, packet_window_start := now }
    else player
  { player with packet_count_per_second := u32 (player.packet_count_per_second + 1) }

/-- The body of `dg_validate_packet` after the player lookup, on the state
`player` referenced by `it->second`. `now` is the clock reading of the body and
`tv` the one of `add_violation`. Returns the result, the player state and the
contents of `out_header`. -/
def validate_packet_body (player : PlayerState) (now tv : Nat) (data : List Nat)
    (out_header : PacketHeader) : Nat × PlayerState × PacketHeader :=
  let player := window_step player now
  if player.packet_count_per_second > player.rate_limit then
    (0, add_violation player VIOLATION_RATE_LIMIT 1 (Details.text "Rate limit exceeded") tv,
      out_header)
  else if data.length < sizeof_PacketHeader then (0, player, out_header)
  else
    let out_header := parse_header data
    if out_header.sequence ≤ player.last_sequence ∧ player.last_sequence > 0 then
      (0, add_violation player VIOLATION_SEQUENCE_HACK 2
            (Details.text "Invalid sequence number") tv, out_header)
    else
      let time_diff := sub_i64 (to_i64 now) (to_i64 out_header.timestamp)
      if timestamp_rejected time_diff then
        (0, add_violation player VIOLATION_TIMESTAMP_INVALID 2
              (Details.text "Invalid timestamp") tv, out_header)
      else
        let computed_checksum := fnv1a_hash (data.drop sizeof_PacketHeader)
        if computed_checksum ≠ out_header.checksum then
          (0, add_violation player VIOLATION_SIGNATURE_INVALID 3
                (Details.text "Checksum mismatch") tv, out_header)
        else if !verify_signature (data.drop sizeof_PacketHeader)
            (player.session_key.take player.key_len) out_header.signature then
          (0, add_violation player VIOLATION_SIGNATURE_INVALID 3
                (Details.text "Signature verification failed") tv, out_header)
        else
          (1, { player with last_sequence := out_header.sequence, last_packet_time := now },
            out_header)

/-- The function `dg_validate_packet(player_id, data, len, out_header)`. -/
def dg_validate_packet (s : Engine) (now tv : Nat) (player_id : Nat) (data : List Nat)
    (out_header : PacketHeader) : Nat × Engine × PacketHeader :=
  match s.g_players player_id with
  | none => (0, s, out_header)
  | some player =>
    let r := validate_packet_body player now tv data out_header
    (r.1, s.set player_id r.2.1, r.2.2)

/-- The function `dg_sign_packet(player_id, data, len, header)`; `now` is its
clock reading. -/
def dg_sign_packet (s : Engine) (now : Nat) (player_id : Nat) (data : List Nat)
    (header : PacketHeader) : Nat × Engine × PacketHeader :=
  match s.g_players player_id with
  | none => (0, s, header)
  | some player =>
    let player := { player with last_sequence := u32 (player.last_sequence + 1) }
    (1, s.set player_id player,
      { player_id := player_id
        sequence := player.last_sequence
        timestamp := now
        checksum := fnv1a_hash data
        signature := compute_signature data (player.session_key.take player.key_len) })

/-! ## Action validators -/

/-- The body of `dg_validate_position` after the player lookup; `t` is the one
clock reading of the path taken (`add_violation` or `last_position_time`). -/
def validate_position_body (player : PlayerState) (t : Nat) (x y z delta_time : F32) :
    Nat × PlayerState :=
  let delta_time := if F32.le delta_time F32.zero then F32.lit 16 1000 else delta_time
  let dx := F32.sub x player.last_x
  let dy := F32.sub y player.last_y
  let dz := F32.sub z player.last_z
  let distance :=
    F32.sqrt (F32.add (F32.add (F32.mul dx dx) (F32.mul dy dy)) (F32.mul dz dz))
  let speed := F32.div distance delta_time
  let max_allowed := F32.mul player.max_speed (F32.add (F32.lit 1 1) POSITION_TOLERANCE)
  if F32.gt speed max_allowed && F32.gt distance (F32.lit 1 1) then
    (0, add_violation player VIOLATION_SPEED_HACK 2
          (Details.fmt "Speed: %.2f, Max: %.2f, Dist: %.2f" [speed, max_allowed, distance]) t)
  else
    (1, { player with last_x := x, last_y := y, last_z := z, last_position_time := t })

/-- The function `dg_validate_position(player_id, x, y, z, delta_time)`. -/
def dg_validate_position (s : Engine) (t : Nat) (player_id : Nat) (x y z delta_time : F32) :
    Nat × Engine :=
  match s.g_players player_id with
  | none => (0, s)
  | some player =>
    let r := validate_position_body player t x y z delta_time
    (r.1, s.set player_id r.2)

/-- The body of `dg_validate_damage` after the player lookup; `t` is the clock
reading of `add_violation`. -/
def validate_damage_body (player : PlayerState) (t : Nat) (damage distance : F32) :
    Nat × PlayerState :=
  if F32.lt damage F32.zero || F32.gt damage player.max_damage then
    (0, add_violation player VIOLATION_DAMAGE_HACK 3
          (Details.fmt "Damage: %.2f, Max: %.2f" [damage, player.max_damage]) t)
  else
    let MAX_ATTACK_RANGE := F32.lit 100 1
    if F32.gt distance MAX_ATTACK_RANGE then
      (0, add_violation player VIOLATION_POSITION_HACK 2
            (Details.fmt "Attack distance: %.2f" [distance]) t)
    else (1, player)

/-- The function `dg_validate_damage(player_id, target_id, damage, distance)`. -/
def dg_validate_damage (s : Engine) (t : Nat) (player_id : Nat) (_target_id : Int)
    (damage distance : F32) : Nat × Engine :=
  match s.g_players player_id with
  | none => (0, s)
  | some player =>
    let r := validate_damage_body player t damage distance
    (r.1, s.set player_id r.2)

/-- The body of `dg_validate_health` after the player lookup; `t` is the clock
reading of `add_violation`. -/
def validate_health_body (player : PlayerState) (t : Nat)
    (old_health new_health max_health : F32) : Nat × PlayerState :=
  if F32.gt new_health (F32.add max_health (F32.lit 1 10)) then
    (0, add_violation player VIOLATION_HEALTH_HACK 3
          (Details.fmt "Health: %.2f, Max: %.2f" [new_health, max_health]) t)
  else if F32.gt new_health (F32.add old_health (F32.lit 50 1)) && F32.gt old_health F32.zero then
    (0, add_violation player VIOLATION_HEALTH_HACK 2
          (Details.fmt "Health jump: %.2f -> %.2f" [old_health, new_health]) t)
  else (1, { player with last_health := new_health })

/-- The function `dg_validate_health(player_id, old_health, new_health, max_health)`. -/
def dg_validate_health (s : Engine) (t : Nat) (player_id : Nat)
    (old_health new_health max_health : F32) : Nat × Engine :=
  match s.g_players player_id with
  | none => (0, s)
  | some player =>
    let r := validate_health_body player t old_health new_health max_health
    (r.1, s.set player_id r.2)

/-! ## Updaters and ledger -/

/-- The function `dg_update_player_position(player_id, x, y, z)`. -/
def dg_update_player_position (s : Engine) (t : Nat) (player_id : Nat) (x y z : F32) : Engine :=
  match s.g_players player_id with
  | none => s
  | some player =>
    s.set player_id { player with last_x := x, last_y := y, last_z := z, last_position_time := t }

/-- The function `dg_update_player_health(player_id, health)`. -/
def dg_update_player_health (s : Engine) (player_id : Nat) (health : F32) : Engine :=
  match s.g_players player_id with
  | none => s
  | some player => s.set player_id { player with last_health := health }

/-- The function `dg_get_violation_count(player_id)`. -/
def dg_get_violation_count (s : Engine) (player_id : Nat) : Nat :=
  match s.g_players player_id with
  | none => 0
  | some player => u32 player.violations.length

/-- The function `dg_get_last_violation(player_id, report)`: the result and the
contents of `*report`. -/
def dg_get_last_violation (s : Engine) (player_id : Nat) (report : ViolationReport) :
    Nat × ViolationReport :=
  match s.g_players player_id with
  | none => (0, report)
  | some player =>
    match player.violations.getLast? with
    | none => (0, report)
    | some v => (1, v)

/-- The function `dg_clear_violations(player_id)`. -/
def dg_clear_violations (s : Engine) (player_id : Nat) : Engine :=
  match s.g_players player_id with
  | none => s
  | some player => s.set player_id { player with violations := [] }

/-! ## Composite action validator -/

/-- The function `dg_validate_action(player_id, action, report)`. A null pointer
is `none`; `t1` and `t2` are the clock readings of the position and of the
damage check. Returns the result, the engine and the contents of `*report`. -/
def dg_validate_action (s : Engine) (t1 t2 : Nat) (player_id : Nat)
    (action : Option GameAction) (report : Option ViolationReport) :
    Nat × Engine × Option ViolationReport :=
  match action with
  | none => (0, s, report)
  | some a =>
    let valid := 1
    let r1 := dg_validate_position s t1 player_id a.pos_x a.pos_y a.pos_z (F32.lit 16 1000)
    let valid := valid &&& r1.1
    let r2 :=
      if F32.gt a.damage F32.zero then
        let dist := F32.sqrt (F32.add (F32.mul a.pos_x a.pos_x) (F32.mul a.pos_z a.pos_z))
        let d := dg_validate_damage r1.2 t2 player_id a.entity_id a.damage dist
        (valid &&& d.1, d.2)
      else (valid, r1.2)
    let report :=
      match report with
      | some buf => if r2.1 = 0 then some (dg_get_last_violation r2.2 player_id buf).2 else some buf
      | none => none
    (r2.1, r2.2, report)

/-- The last position, sequence number and health tracked for a player. -/
def tracked (s : Engine) (player_id : Nat) : Option ((F32 × F32 × F32) × Nat × F32) :=
  (s.g_players player_id).map
    (fun p => ((p.last_x, p.last_y, p.last_z), p.last_sequence, p.last_health))

/-- The violation sequence of a player. -/
def violations_of (s : Engine) (player_id : Nat) : List ViolationReport :=
  match s.g_players player_id with
  | none => []
  | some p => p.violations

/-! ## Conditions and runs named by the properties -/

/-- The rate-limit test of `dg_validate_packet` fires for this call. -/
def rate_limit_exceeded (player : PlayerState) (now : Nat) : Prop :=
  (window_step player now).packet_count_per_second > player.rate_limit

instance (player : PlayerState) (now : Nat) : Decidable (rate_limit_exceeded player now) := by
  unfold rate_limit_exceeded; exact inferInstance

/-- The sequence test of `dg_validate_packet` fires for this packet. -/
def sequence_rejected (player : PlayerState) (data : List Nat) : Prop :=
  (parse_header data).sequence ≤ player.last_sequence ∧ player.last_sequence > 0

instance (player : PlayerState) (data : List Nat) : Decidable (sequence_rejected player data) := by
  unfold sequence_rejected; exact inferInstance

/-- The time step of the position check as the specification words it: `0.016`
when `delta_time <= 0`, else `delta_time`. -/
def spec_delta_time (delta_time : F32) : F32 :=
  if F32.le delta_time F32.zero then F32.lit 16 1000 else delta_time

/-- The distance of the position check as the specification words it: from the
last position to `(x, y, z)`, in `float` arithmetic. -/
def spec_distance (p : PlayerState) (x y z : F32) : F32 :=
  F32.sqrt (F32.add (F32.add
    (F32.mul (F32.sub x p.last_x) (F32.sub x p.last_x))
    (F32.mul (F32.sub y p.last_y) (F32.sub y p.last_y)))
    (F32.mul (F32.sub z p.last_z) (F32.sub z p.last_z)))

/-- The violation condition of the position check as the specification words
it: `speed > max_speed * 1.5` and `distance > 1.0`, with
`speed = distance / delta_time`. -/
def spec_speed_violation (p : PlayerState) (x y z delta_time : F32) : Bool :=
  F32.gt (F32.div (spec_distance p x y z) (spec_delta_time delta_time))
      (F32.mul p.max_speed (F32.lit 15 10)) &&
    F32.gt (spec_distance p x y z) (F32.lit 1 1)

/-- The arguments of one `dg_validate_packet` call, with its two clock readings. -/
structure PacketCall where
  now : Nat
  tv : Nat
  data : List Nat
  out_header : PacketHeader

/-- The engine after a run of `dg_validate_packet` calls for one player. -/
def run_packets (s : Engine) (player_id : Nat) : List PacketCall → Engine
  | [] => s
  | c :: cs =>
    run_packets (dg_validate_packet s c.now c.tv player_id c.data c.out_header).2.1 player_id cs

/-! ## Scenarios -/

/-- An all-zero header buffer. -/
def zero_header : PacketHeader := ⟨0, 0, 0, 0, List.replicate 32 0⟩

/-- An initialized engine without players. -/
def engine_up : Engine := (dg_init Engine.initial []).2

/-- The clock reading used in the scenarios, in milliseconds. -/
def T0 : Nat := 1700000000000

/-- Scenario 1: player 7 registered with the key `0x00..0x1F`. -/
def engine_player7 : Engine :=
  (dg_register_player engine_up T0 T0 (fun _ => 0) 7 (some (List.range 32))).2

/-- Scenario 1: the 16-byte zero payload. -/
def payload16 : List Nat := List.replicate 16 0

/-- Scenario 1: the result of `dg_sign_packet` for player 7 on the zero payload. -/
def signed7 : Nat × Engine × PacketHeader :=
  dg_sign_packet engine_player7 T0 7 payload16 zero_header

/-- Scenario 1: the 68-byte packet `header || payload`. -/
def packet7 : List Nat := header_bytes signed7.2.2 ++ payload16

/-- Scenario 5: player 7 after 100 packets within one second. -/
def engine_flooded : Engine :=
  run_packets engine_player7 7 (List.replicate 100 ⟨T0, T0, [], zero_header⟩)

/-- The packet of scenario 1 in the layout the code reads: the 52 bytes of the
header fields, the 4 bytes of padding, then the payload (72 bytes). -/
def packet7_padded : List Nat := header_bytes signed7.2.2 ++ [0, 0, 0, 0] ++ payload16

/-- Scenario 6: the packet of scenario 1, in the layout the code reads, with the
header timestamp forged to `now + 10000`; checksum and signature are those of
the payload. -/
def packet7_skewed : List Nat :=
  header_bytes { signed7.2.2 with timestamp := T0 + 10000 } ++ [0, 0, 0, 0] ++ payload16

/-- The 52 bytes of the header of scenario 1 alone, without padding or payload. -/
def header7_only : List Nat := header_bytes signed7.2.2

/-- The 52 bytes of the header of scenario 1 with the timestamp forged to
`now + 10000`, without padding or payload. -/
def header7_only_skewed : List Nat :=
  header_bytes { signed7.2.2 with timestamp := T0 + 10000 }

/-- Scenario 3: player 3 registered without a key, position set to the origin by
the updater. -/
def engine_player3 : Engine :=
  dg_update_player_position
    (dg_register_player engine_up T0 T0 (fun i => 37 * i + 11) 3 none).2 T0 3
    F32.zero F32.zero F32.zero

/-- Scenario 4: player 5 registered without a key. -/
def engine_player5 : Engine :=
  (dg_register_player engine_up T0 T0 (fun i => 37 * i + 11) 5 none).2

/-- An action that moves half a unit and claims a damage of 1000. -/
def action_step_overdamage : GameAction :=
  { entity_id := 9, pos_x := F32.lit 5 10, pos_y := F32.zero, pos_z := F32.zero,
    health := F32.lit 100 1, damage := F32.lit 1000 1, action_type := 0 }

/-! ## Checksum and cipher entry points -/

/-- The loop of `xor_cipher` over the bytes still to be processed; `i` is the
loop variable. The key must not be empty (`i % key_len`). -/
def xor_cipher_loop (key : List Nat) : Nat → List Nat → List Nat
  | _, [] => []
  | i, b :: rest =>
    let b1 := u8 b ^^^ u8 (key.getD (i % key.length) 0)
    u8 ((b1 <<< 3) ||| (b1 >>> 5)) :: xor_cipher_loop key (i + 1) rest

/-- The function `xor_cipher(data, len, key, key_len)`, returning the buffer. -/
def xor_cipher (data key : List Nat) : List Nat := xor_cipher_loop key 0 data

/-- The function `dg_encrypt_data(data, len, key, key_len)`. -/
def dg_encrypt_data (data key : List Nat) : List Nat := xor_cipher data key

/-- The loop of `dg_decrypt_data`; `i` is the loop variable. -/
def decrypt_loop (key : List Nat) : Nat → List Nat → List Nat
  | _, [] => []
  | i, b :: rest =>
    let b1 := u8 ((u8 b >>> 3) ||| (u8 b <<< 5))
    u8 (b1 ^^^ u8 (key.getD (i % key.length) 0)) :: decrypt_loop key (i + 1) rest

/-- The function `dg_decrypt_data(data, len, key, key_len)`, returning the
buffer. -/
def dg_decrypt_data (data key : List Nat) : List Nat := decrypt_loop key 0 data

/-- The function `dg_compute_checksum(data, len)`. -/
def dg_compute_checksum (data : List Nat) : Nat := fnv1a_hash data

/-! ## The primitives as the specification defines them -/

/-- An 8-bit rotate-left by 3, as the specification names it. -/
def rotl8_3 (b : Nat) : Nat := (b * 8) % 256 + b / 32

/-- An 8-bit rotate-right by 3, as the specification names it. -/
def rotr8_3 (b : Nat) : Nat := b / 8 + (b * 32) % 256

/-- FNV-1a as the specification defines it: a left fold from the seed. -/
def spec_fnv1a (data : List Nat) : Nat :=
  data.foldl (fun h b => ((h ^^^ b) * 0x01000193) % 2 ^ 32) 0x811C9DC5

/-- The byte `sig[i]` as the specification defines it from `h1`, `h2` and `i`,
with the shifts written as wrapping 32-bit arithmetic. -/
def spec_sig_byte (h1 h2 i : Nat) : Nat :=
  let mix := h1 ^^^ ((h2 * 2 ^ (i % 16)) % 2 ^ 32) ^^^ ((i * 0x9E3779B9) % 2 ^ 32)
  (mix ^^^ mix / 2 ^ 8 ^^^ mix / 2 ^ 16 ^^^ mix / 2 ^ 24) % 2 ^ 8

/-- The first `n` signature bytes as the specification defines them: `h1` is
`FNV1a(P)` for byte 0 and `FNV1a(sig[0..i])` for byte `i > 0`. -/
def spec_signature (P K : List Nat) : Nat → List Nat
  | 0 => []
  | n + 1 =>
    let h1 := if n = 0 then spec_fnv1a P else spec_fnv1a (spec_signature P K n)
    spec_signature P K n ++ [spec_sig_byte h1 (spec_fnv1a K) n]

/-- The byte written by iteration `i` of the loop of `compute_signature`. -/
def signature_byte (h1 h2 i : Nat) : Nat :=
  u8 ((h1 ^^^ u32 (h2 <<< (i % 16)) ^^^ u32 (i * 0x9E3779B9)) ^^^
    ((h1 ^^^ u32 (h2 <<< (i % 16)) ^^^ u32 (i * 0x9E3779B9)) >>> 8) ^^^
    ((h1 ^^^ u32 (h2 <<< (i % 16)) ^^^ u32 (i * 0x9E3779B9)) >>> 16) ^^^
    ((h1 ^^^ u32 (h2 <<< (i % 16)) ^^^ u32 (i * 0x9E3779B9)) >>> 24))

/-- The signature as a function of the key hash `h2` and of its first byte:
iterations 1 to 31 of the loop of `compute_signature`. -/
def signature_from_first_byte (h2 b0 : Nat) : List Nat :=
  signature_loop h2 31 1 (fnv1a_hash [b0]) [b0]

/-! ## Sequences of calls -/

/-- A call of the public interface with its arguments, clock readings and
random bytes. -/
inductive Call where
  | init (server_key : List Nat)
  | shutdown
  | register_player (t1 t2 : Nat) (rnd : Nat → Nat) (player_id : Nat)
      (session_key : Option (List Nat))
  | unregister_player (player_id : Nat)
  | validate_packet (now tv player_id : Nat) (data : List Nat) (out_header : PacketHeader)
  | sign_packet (now player_id : Nat) (data : List Nat) (header : PacketHeader)
  | validate_action (t1 t2 player_id : Nat) (action : Option GameAction)
      (report : Option ViolationReport)
  | validate_position (t player_id : Nat) (x y z delta_time : F32)
  | validate_damage (t player_id : Nat) (target_id : Int) (damage distance : F32)
  | validate_health (t player_id : Nat) (old_health new_health max_health : F32)
  | update_player_position (t player_id : Nat) (x y z : F32)
  | update_player_health (player_id : Nat) (health : F32)
  | get_violation_count (player_id : Nat)
  | get_last_violation (player_id : Nat) (report : ViolationReport)
  | clear_violations (player_id : Nat)
  | compute_checksum (data : List Nat)
  | encrypt_data (data key : List Nat)
  | decrypt_data (data key : List Nat)

/-- The engine after one call of the public interface. -/
def Call.step (s : Engine) : Call → Engine
  | Call.init server_key => (dg_init s server_key).2
  | Call.shutdown => dg_shutdown s
  | Call.register_player t1 t2 rnd player_id session_key =>
    (dg_register_player s t1 t2 rnd player_id session_key).2
  | Call.unregister_player player_id => dg_unregister_player s player_id
  | Call.validate_packet now tv player_id data out_header =>
    (dg_validate_packet s now tv player_id data out_header).2.1
  | Call.sign_packet now player_id data header => (dg_sign_packet s now player_id data header).2.1
  | Call.validate_action t1 t2 player_id action report =>
    (dg_validate_action s t1 t2 player_id action report).2.1
  | Call.validate_position t player_id x y z delta_time =>
    (dg_validate_position s t player_id x y z delta_time).2
  | Call.validate_damage t player_id target_id damage distance =>
    (dg_validate_damage s t player_id target_id damage distance).2
  | Call.validate_health t player_id old_health new_health max_health =>
    (dg_validate_health s t player_id old_health new_health max_health).2
  | Call.update_player_position t player_id x y z => dg_update_player_position s t player_id x y z
  | Call.update_player_health player_id health => dg_update_player_health s player_id health
  | Call.get_violation_count _ => s
  | Call.get_last_violation _ _ => s
  | Call.clear_violations player_id => dg_clear_violations s player_id
  | Call.compute_checksum _ => s
  | Call.encrypt_data _ _ => s
  | Call.decrypt_data _ _ => s

/-- The engine after a sequence of calls of the public interface. -/
def run_calls (s : Engine) : List Call → Engine
  | [] => s
  | c :: cs => run_calls (Call.step s c) cs

/-- The invariant of the engine: without the initialized flag there is no
player, and every stored state carries the id it is stored under. -/
def Engine.wf (s : Engine) : Prop :=
  (s.g_initialized = false → ∀ pid, s.g_players pid = none) ∧
  (∀ pid p, s.g_players pid = some p → p.player_id = pid)

/-- The relation between the engine before and after a call that neither
creates a player nor touches the flag: every player of the later engine was a
player of the earlier one, with the same id field. -/
def Engine.touched (s s' : Engine) : Prop :=
  s'.g_initialized = s.g_initialized ∧
  ∀ k p', s'.g_players k = some p' → ∃ p, s.g_players k = some p ∧ p'.player_id = p.player_id

/-! ## The sub-checks of the composite validator -/

/-- The attack distance that `dg_validate_action` hands to the damage check:
`sqrt(pos_x^2 + pos_z^2)` in `float` arithmetic. -/
def action_distance (a : GameAction) : F32 :=
  F32.sqrt (F32.add (F32.mul a.pos_x a.pos_x) (F32.mul a.pos_z a.pos_z))

/-- The position sub-check of `dg_validate_action`: `dg_validate_position` at
the action's position with `delta_time` 0.016. -/
def action_position_check (s : Engine) (t1 pid : Nat) (a : GameAction) : Nat × Engine :=
  dg_validate_position s t1 pid a.pos_x a.pos_y a.pos_z (F32.lit 16 1000)

/-- The damage sub-check of `dg_validate_action`: `dg_validate_damage` with the
distance `sqrt(pos_x^2 + pos_z^2)`, on the engine left by the position
sub-check. -/
def action_damage_check (s : Engine) (t1 t2 pid : Nat) (a : GameAction) : Nat × Engine :=
  dg_validate_damage (action_position_check s t1 pid a).2 t2 pid a.entity_id a.damage
    (action_distance a)

/-! ## Further scenarios -/

/-- The report recorded by each call of `health_flood`. -/
def health_flood_report : ViolationReport :=
  ⟨5, 4, 2, T0, Details.fmt "Health jump: %.2f -> %.2f" [F32.lit 10 1, F32.lit 80 1]⟩

/-- The engine of player 5 after `n` calls `dg_validate_health(5, 10, 80, 100)`
at the clock reading `T0`. -/
def health_flood : Nat → Engine
  | 0 => engine_player5
  | n + 1 =>
    (dg_validate_health (health_flood n) T0 5 (F32.lit 10 1) (F32.lit 80 1) (F32.lit 100 1)).2

/-- A lifecycle that ends uninitialized: init, register player 7, a rejected
move, shutdown. -/
def calls_until_shutdown : List Call :=
  [Call.init [1, 2, 3], Call.register_player T0 T0 (fun _ => 0) 7 (some (List.range 32)),
    Call.validate_position T0 7 (F32.lit 100 1) F32.zero F32.zero (F32.lit 1 10),
    Call.shutdown]

/-- Player 3 moved to `(200, 0, 0)` by the updater. -/
def engine_player3_far : Engine :=
  dg_update_player_position engine_player3 T0 3 (F32.lit 200 1) F32.zero F32.zero

/-- An action at `(200, 0, 0)` whose damage field is a NaN. -/
def action_nan_damage : GameAction :=
  { entity_id := 9, pos_x := F32.lit 200 1, pos_y := F32.zero, pos_z := F32.zero,
    health := F32.lit 100 1, damage := F32.qnan, action_type := 0 }

/-- An action that jumps to `(300, 0, 0)` with damage 1000. -/
def action_jump_overdamage : GameAction :=
  { entity_id := 9, pos_x := F32.lit 300 1, pos_y := F32.zero, pos_z := F32.zero,
    health := F32.lit 100 1, damage := F32.lit 1000 1, action_type := 0 }

/-! ## Lemmas -/

/-! ### The binary32 model -/

set_option maxRecDepth 100000 in
/-- The model reproduces known binary32 results: correctly rounded literals,
sums, quotients and square roots, ties to even, overflow to infinity, gradual
underflow, and the invalid operations. -/
theorem f32_reference_values :
    (F32.lit 1 10).bits = 0x3DCCCCCD ∧ (F32.lit 16 1000).bits = 0x3C83126F ∧
    (F32.add (F32.lit 1 10) (F32.lit 2 10)).bits = 0x3E99999A ∧
    (F32.add (F32.lit 100 1) (F32.lit 1 10)).bits = 0x42C83333 ∧
    (F32.div (F32.lit 1 1) (F32.lit 3 1)).bits = 0x3EAAAAAB ∧
    (F32.sqrt (F32.lit 2 1)).bits = 0x3FB504F3 ∧
    (F32.sqrt ⟨1⟩).bits = 0x1A3504F3 ∧
    (F32.add (F32.lit 16777216 1) (F32.lit 1 1)).bits = 0x4B800000 ∧
    (F32.add (F32.lit 16777216 1) (F32.lit 3 1)).bits = 0x4B800002 ∧
    (F32.mul ⟨0x7F7FFFFF⟩ (F32.lit 2 1)).bits = 0x7F800000 ∧
    (F32.div ⟨0x00800000⟩ (F32.lit 2 1)).bits = 0x00400000 ∧
    (F32.div ⟨1⟩ (F32.lit 2 1)).bits = 0 ∧ (F32.div ⟨3⟩ (F32.lit 2 1)).bits = 2 ∧
    (F32.sub (F32.lit 1 1) (F32.lit 1 1)).bits = 0 ∧
    (F32.div (F32.lit 5 10) (F32.lit 16 1000)).bits = 0x41F9FFFF ∧
    (F32.div (F32.lit 100 1) (F32.lit 1 10)).bits = 0x447A0000 ∧
    (F32.div (F32.lit 1 1) F32.zero).bits = 0x7F800000 ∧
    (F32.div F32.zero F32.zero).val = FVal.nan ∧
    (F32.sqrt (F32.neg (F32.lit 1 1))).val = FVal.nan ∧
    F32.lt F32.qnan (F32.lit 1 1) = false ∧ F32.gt F32.qnan (F32.lit 1 1) = false ∧
    F32.le (F32.neg F32.zero) F32.zero = true := by
  decide

/-! ### The packet pipeline -/

/-- The timestamp test of `dg_validate_packet` fires for every difference: a
value below `2^64 - 5000` satisfies the first comparison, any other one the
second. -/
theorem timestamp_rejected_always (d : Int) : timestamp_rejected d = true := by
  unfold timestamp_rejected neg_u64 TIMESTAMP_TOLERANCE_MS u64
  simp only [Bool.or_eq_true, decide_eq_true_eq]
  norm_num
  omega

/-- The window step leaves `rate_limit` alone. -/
theorem window_step_rate_limit (p : PlayerState) (now : Nat) :
    (window_step p now).rate_limit = p.rate_limit := by
  unfold window_step; split <;> rfl

/-- The window step leaves `last_sequence` alone. -/
theorem window_step_last_sequence (p : PlayerState) (now : Nat) :
    (window_step p now).last_sequence = p.last_sequence := by
  unfold window_step; split <;> rfl

/-- The window step leaves the violation sequence alone. -/
theorem window_step_violations (p : PlayerState) (now : Nat) :
    (window_step p now).violations = p.violations := by
  unfold window_step; split <;> rfl

/-- The window step leaves `player_id` alone. -/
theorem window_step_player_id (p : PlayerState) (now : Nat) :
    (window_step p now).player_id = p.player_id := by
  unfold window_step; split <;> rfl

/-- The window step leaves `last_packet_time` alone. -/
theorem window_step_last_packet_time (p : PlayerState) (now : Nat) :
    (window_step p now).last_packet_time = p.last_packet_time := by
  unfold window_step; split <;> rfl

/-- The window step leaves position and health alone. -/
theorem window_step_position_health (p : PlayerState) (now : Nat) :
    (window_step p now).last_x = p.last_x ∧ (window_step p now).last_y = p.last_y ∧
    (window_step p now).last_z = p.last_z ∧ (window_step p now).last_health = p.last_health := by
  unfold window_step; split <;> exact ⟨rfl, rfl, rfl, rfl⟩

/-- Inside the window the step only counts the packet. -/
theorem window_step_within (p : PlayerState) (now : Nat)
    (hw : sub_u64 now p.packet_window_start ≤ 1000) (hk : p.packet_count_per_second < 2 ^ 32 - 1) :
    window_step p now = { p with packet_count_per_second := p.packet_count_per_second + 1 } := by
  unfold window_step u32
  have : ¬ sub_u64 now p.packet_window_start > 1000 := by omega
  simp only [this, if_false]
  rw [Nat.mod_eq_of_lt (by omega)]

/-- Past the window the step restarts it at `now` with a count of one. -/
theorem window_step_restart (p : PlayerState) (now : Nat)
    (hw : sub_u64 now p.packet_window_start > 1000) :
    window_step p now = { p with packet_count_per_second := 1, packet_window_start := now } := by
  unfold window_step u32
  simp [hw]

/-- A player below the limit of 100 is not rate-limited by the next call. -/
theorem fresh_not_rate_limited (p : PlayerState) (now : Nat)
    (hc : p.packet_count_per_second < 100) (hl : p.rate_limit = 100) :
    ¬ rate_limit_exceeded p now := by
  unfold rate_limit_exceeded window_step u32
  split
  · simp [hl]
  · simp [hl]; omega

/-- The outcome of the pipeline when the rate-limit test fires. -/
theorem body_rate_limited (p : PlayerState) (now tv : Nat) (data : List Nat) (h : PacketHeader)
    (hr : rate_limit_exceeded p now) :
    validate_packet_body p now tv data h =
      (0, add_violation (window_step p now) VIOLATION_RATE_LIMIT 1
            (Details.text "Rate limit exceeded") tv, h) := by
  have hr2 : (window_step p now).packet_count_per_second > (window_step p now).rate_limit := by
    rw [window_step_rate_limit]; exact hr
  unfold validate_packet_body
  simp [hr2]

/-- The outcome of the pipeline on a packet shorter than the header. -/
theorem body_short (p : PlayerState) (now tv : Nat) (data : List Nat) (h : PacketHeader)
    (hr : ¬ rate_limit_exceeded p now) (hl : data.length < 56) :
    validate_packet_body p now tv data h = (0, window_step p now, h) := by
  have hr2 : ¬ (window_step p now).packet_count_per_second > (window_step p now).rate_limit := by
    rw [window_step_rate_limit]; exact hr
  unfold validate_packet_body
  simp [hr2, sizeof_PacketHeader, hl]

/-- The outcome of the pipeline when the sequence test fires. -/
theorem body_sequence (p : PlayerState) (now tv : Nat) (data : List Nat) (h : PacketHeader)
    (hr : ¬ rate_limit_exceeded p now) (hl : 56 ≤ data.length) (hs : sequence_rejected p data) :
    validate_packet_body p now tv data h =
      (0, add_violation (window_step p now) VIOLATION_SEQUENCE_HACK 2
            (Details.text "Invalid sequence number") tv, parse_header data) := by
  have hr2 : ¬ (window_step p now).packet_count_per_second > (window_step p now).rate_limit := by
    rw [window_step_rate_limit]; exact hr
  have hl2 : ¬ data.length < 56 := by omega
  unfold sequence_rejected at hs
  unfold validate_packet_body
  simp [hr2, sizeof_PacketHeader, hl2, window_step_last_sequence, hs]

/-- The outcome of the pipeline on every packet that reaches the timestamp
test. -/
theorem body_timestamp (p : PlayerState) (now tv : Nat) (data : List Nat) (h : PacketHeader)
    (hr : ¬ rate_limit_exceeded p now) (hl : 56 ≤ data.length) (hs : ¬ sequence_rejected p data) :
    validate_packet_body p now tv data h =
      (0, add_violation (window_step p now) VIOLATION_TIMESTAMP_INVALID 2
            (Details.text "Invalid timestamp") tv, parse_header data) := by
  have hr2 : ¬ (window_step p now).packet_count_per_second > (window_step p now).rate_limit := by
    rw [window_step_rate_limit]; exact hr
  have hl2 : ¬ data.length < 56 := by omega
  unfold sequence_rejected at hs
  unfold validate_packet_body
  simp only [hr2, sizeof_PacketHeader, hl2, window_step_last_sequence, hs,
    timestamp_rejected_always]
  simp

/-- Without the rate limit the pipeline fails with at most one violation, of a
type other than `RATE_LIMIT`. -/
theorem body_cases (p : PlayerState) (now tv : Nat) (data : List Nat) (h : PacketHeader)
    (hr : ¬ rate_limit_exceeded p now) :
    (validate_packet_body p now tv data h).1 = 0 ∧
    ((validate_packet_body p now tv data h).2.1 = window_step p now ∨
      ∃ ty sev d, ty ≠ 8 ∧
        (validate_packet_body p now tv data h).2.1 =
          add_violation (window_step p now) ty sev d tv) := by
  by_cases hl : data.length < 56
  · rw [body_short p now tv data h hr hl]; exact ⟨rfl, Or.inl rfl⟩
  · by_cases hs : sequence_rejected p data
    · rw [body_sequence p now tv data h hr (by omega) hs]
      exact ⟨rfl, Or.inr ⟨_, _, _, by decide, rfl⟩⟩
    · rw [body_timestamp p now tv data h hr (by omega) hs]
      exact ⟨rfl, Or.inr ⟨_, _, _, by decide, rfl⟩⟩

/-- The violation sequence after `add_violation` on the stepped player. -/
theorem add_violation_window (p : PlayerState) (now ty sev t : Nat) (d : Details) :
    (add_violation (window_step p now) ty sev d t).violations =
      p.violations ++ [⟨p.player_id, ty, sev, t, d⟩] := by
  simp [add_violation, window_step_violations, window_step_player_id]

/-! ### The player map -/

/-- Reading the violations of the player just written. -/
theorem violations_of_set (s : Engine) (pid : Nat) (p : PlayerState) :
    violations_of (s.set pid p) pid = p.violations := by
  simp [violations_of, Engine.set]

/-- Reading the violations of a registered player. -/
theorem violations_of_registered (s : Engine) (pid : Nat) (p : PlayerState)
    (hp : s.g_players pid = some p) : violations_of s pid = p.violations := by
  simp [violations_of, hp]

/-- Looking up the player just written. -/
theorem players_set_self (s : Engine) (pid : Nat) (p : PlayerState) :
    (s.set pid p).g_players pid = some p := by
  simp [Engine.set]

/-- Writing back the state that is already stored changes nothing. -/
theorem set_same (s : Engine) (pid : Nat) (p : PlayerState) (hp : s.g_players pid = some p) :
    s.set pid p = s := by
  cases s with
  | mk g k l i =>
    simp only [Engine.set, Engine.mk.injEq, and_true]
    funext q
    by_cases hq : q = pid
    · subst hq; simp [← hp]
    · simp [hq]

/-- The tracked state of the player just written. -/
theorem tracked_set (s : Engine) (pid : Nat) (p : PlayerState) :
    tracked (s.set pid p) pid =
      some ((p.last_x, p.last_y, p.last_z), p.last_sequence, p.last_health) := by
  simp [tracked, Engine.set]

/-- The tracked state of a registered player. -/
theorem tracked_registered (s : Engine) (pid : Nat) (p : PlayerState)
    (hp : s.g_players pid = some p) :
    tracked s pid = some ((p.last_x, p.last_y, p.last_z), p.last_sequence, p.last_health) := by
  simp [tracked, hp]

/-- For a registered player `dg_validate_packet` runs the body and writes back. -/
theorem dg_validate_packet_registered (s : Engine) (now tv pid : Nat) (data : List Nat)
    (h : PacketHeader) (p : PlayerState) (hp : s.g_players pid = some p) :
    dg_validate_packet s now tv pid data h =
      ((validate_packet_body p now tv data h).1,
        s.set pid (validate_packet_body p now tv data h).2.1,
        (validate_packet_body p now tv data h).2.2) := by
  simp [dg_validate_packet, hp]

/-- For a registered player `dg_validate_position` runs the body and writes back. -/
theorem dg_validate_position_registered (s : Engine) (t pid : Nat) (x y z dt : F32)
    (p : PlayerState) (hp : s.g_players pid = some p) :
    dg_validate_position s t pid x y z dt =
      ((validate_position_body p t x y z dt).1,
        s.set pid (validate_position_body p t x y z dt).2) := by
  simp [dg_validate_position, hp]

/-- For a registered player `dg_validate_health` runs the body and writes back. -/
theorem dg_validate_health_registered (s : Engine) (t pid : Nat) (o n m : F32)
    (p : PlayerState) (hp : s.g_players pid = some p) :
    dg_validate_health s t pid o n m =
      ((validate_health_body p t o n m).1, s.set pid (validate_health_body p t o n m).2) := by
  simp [dg_validate_health, hp]

/-- For a registered player `dg_validate_damage` runs the body and writes back. -/
theorem dg_validate_damage_registered (s : Engine) (t pid : Nat) (tid : Int) (dmg dist : F32)
    (p : PlayerState) (hp : s.g_players pid = some p) :
    dg_validate_damage s t pid tid dmg dist =
      ((validate_damage_body p t dmg dist).1, s.set pid (validate_damage_body p t dmg dist).2) := by
  simp [dg_validate_damage, hp]

/-! ### Runs inside one rate window -/

/-- One call inside the window, below the limit: the count grows by one, the
window and the limit stay, and no `RATE_LIMIT` violation is appended. -/
theorem step_within_window (s : Engine) (pid : Nat) (p : PlayerState) (c : PacketCall)
    (hp : s.g_players pid = some p) (hlim : p.rate_limit = 100)
    (hk : p.packet_count_per_second < 100)
    (hw : sub_u64 c.now p.packet_window_start ≤ 1000) :
    ∃ q, (dg_validate_packet s c.now c.tv pid c.data c.out_header).2.1.g_players pid = some q ∧
      q.rate_limit = 100 ∧ q.packet_count_per_second = p.packet_count_per_second + 1 ∧
      q.packet_window_start = p.packet_window_start ∧ q.player_id = p.player_id ∧
      ∃ vs, q.violations = p.violations ++ vs ∧ ∀ v ∈ vs, v.violation_type ≠ 8 := by
  have hws := window_step_within p c.now hw (by omega)
  have hr : ¬ rate_limit_exceeded p c.now := by
    unfold rate_limit_exceeded; rw [hws, hlim]; simp; omega
  rw [dg_validate_packet_registered s c.now c.tv pid c.data c.out_header p hp]
  simp only [players_set_self]
  rcases (body_cases p c.now c.tv c.data c.out_header hr).2 with h1 | ⟨ty, sev, d, hty, h1⟩
  · refine ⟨_, rfl, ?_⟩
    rw [h1, hws]
    exact ⟨hlim, rfl, rfl, rfl, [], by simp, by simp⟩
  · refine ⟨_, rfl, ?_⟩
    rw [h1, hws]
    refine ⟨hlim, rfl, rfl, rfl, [⟨p.player_id, ty, sev, c.tv, d⟩], rfl, ?_⟩
    intro v hv
    simp at hv
    rw [hv]; exact hty

/-- A run inside the window that stays within the limit: the count grows by the
length of the run and no `RATE_LIMIT` violation is appended. -/
theorem run_within_window (pid : Nat) (calls : List PacketCall) :
    ∀ (s : Engine) (p : PlayerState), s.g_players pid = some p → p.rate_limit = 100 →
      p.packet_count_per_second + calls.length ≤ 100 →
      (∀ c ∈ calls, sub_u64 c.now p.packet_window_start ≤ 1000) →
      ∃ q, (run_packets s pid calls).g_players pid = some q ∧
        q.rate_limit = 100 ∧
        q.packet_count_per_second = p.packet_count_per_second + calls.length ∧
        q.packet_window_start = p.packet_window_start ∧ q.player_id = p.player_id ∧
        ∃ vs, q.violations = p.violations ++ vs ∧ ∀ v ∈ vs, v.violation_type ≠ 8 := by
  induction calls with
  | nil =>
    intro s p hp hlim _ _
    exact ⟨p, hp, hlim, rfl, rfl, rfl, [], by simp, by simp⟩
  | cons c cs ih =>
    intro s p hp hlim hk hw
    simp only [List.length_cons] at hk
    obtain ⟨q, hq, hqlim, hqk, hqw, hqid, vs, hvs, hvs8⟩ :=
      step_within_window s pid p c hp hlim (by omega) (hw c (by simp))
    obtain ⟨r, hr, hrlim, hrk, hrw, hrid, ws, hws, hws8⟩ :=
      ih _ q hq hqlim (by omega) (fun c' hc' => by rw [hqw]; exact hw c' (by simp [hc']))
    refine ⟨r, hr, hrlim, ?_, by rw [hrw, hqw], by rw [hrid, hqid], vs ++ ws, ?_, ?_⟩
    · simp only [List.length_cons]; omega
    · rw [hws, hvs, List.append_assoc]
    · intro v hv
      rcases List.mem_append.mp hv with h | h
      · exact hvs8 v h
      · exact hws8 v h

/-! ### The action validators -/

set_option maxRecDepth 100000 in
/-- The factor `1.0f + POSITION_TOLERANCE` is the float `1.5`. -/
theorem one_plus_tolerance : F32.add (F32.lit 1 1) POSITION_TOLERANCE = F32.lit 15 10 := by
  decide

/-- The position check on a violation. -/
theorem position_body_reject (p : PlayerState) (t : Nat) (x y z dt : F32)
    (h : spec_speed_violation p x y z dt = true) :
    ∃ d, validate_position_body p t x y z dt = (0, add_violation p 1 2 d t) := by
  unfold spec_speed_violation spec_distance spec_delta_time at h
  rw [← one_plus_tolerance] at h
  unfold validate_position_body
  simp only [h, if_true]
  exact ⟨_, rfl⟩

/-- The position check without a violation. -/
theorem position_body_accept (p : PlayerState) (t : Nat) (x y z dt : F32)
    (h : spec_speed_violation p x y z dt = false) :
    validate_position_body p t x y z dt =
      (1, { p with last_x := x, last_y := y, last_z := z, last_position_time := t }) := by
  unfold spec_speed_violation spec_distance spec_delta_time at h
  rw [← one_plus_tolerance] at h
  unfold validate_position_body
  simp only [h]
  rfl

/-- The packet pipeline always fails and never touches the tracked fields. -/
theorem packet_body_tracked (p : PlayerState) (now tv : Nat) (data : List Nat)
    (h : PacketHeader) :
    (validate_packet_body p now tv data h).1 = 0 ∧
    (validate_packet_body p now tv data h).2.1.last_x = p.last_x ∧
    (validate_packet_body p now tv data h).2.1.last_y = p.last_y ∧
    (validate_packet_body p now tv data h).2.1.last_z = p.last_z ∧
    (validate_packet_body p now tv data h).2.1.last_sequence = p.last_sequence ∧
    (validate_packet_body p now tv data h).2.1.last_health = p.last_health := by
  have hw := window_step_position_health p now
  have hs := window_step_last_sequence p now
  by_cases hr : rate_limit_exceeded p now
  · rw [body_rate_limited p now tv data h hr]
    exact ⟨rfl, hw.1, hw.2.1, hw.2.2.1, hs, hw.2.2.2⟩
  · rcases body_cases p now tv data h hr with ⟨h0, h1 | ⟨ty, sev, d, _, h1⟩⟩
    · rw [h1]; exact ⟨h0, hw.1, hw.2.1, hw.2.2.1, hs, hw.2.2.2⟩
    · rw [h1]; exact ⟨h0, hw.1, hw.2.1, hw.2.2.1, hs, hw.2.2.2⟩

/-- The tracked state across `dg_validate_packet`. -/
theorem packet_tracked (s : Engine) (now tv pid : Nat) (data : List Nat) (h : PacketHeader) :
    tracked (dg_validate_packet s now tv pid data h).2.1 pid = tracked s pid := by
  cases hp : s.g_players pid with
  | none => simp [dg_validate_packet, hp]
  | some p =>
    rw [dg_validate_packet_registered s now tv pid data h p hp, tracked_set,
      tracked_registered s pid p hp]
    obtain ⟨_, h1, h2, h3, h4, h5⟩ := packet_body_tracked p now tv data h
    simp only [h1, h2, h3, h4, h5]

/-- The tracked state across `dg_validate_position`: sequence and health stay;
the position stays on failure and is the new one otherwise. -/
theorem position_tracked (s : Engine) (t pid : Nat) (x y z dt : F32) :
    (tracked (dg_validate_position s t pid x y z dt).2 pid).map Prod.snd =
      (tracked s pid).map Prod.snd ∧
    ((dg_validate_position s t pid x y z dt).1 = 0 →
      tracked (dg_validate_position s t pid x y z dt).2 pid = tracked s pid) ∧
    ((dg_validate_position s t pid x y z dt).1 ≠ 0 →
      (dg_validate_position s t pid x y z dt).1 = 1 ∧
      (tracked (dg_validate_position s t pid x y z dt).2 pid).map Prod.fst = some (x, y, z)) := by
  cases hp : s.g_players pid with
  | none => simp [dg_validate_position, hp, tracked]
  | some p =>
    rw [dg_validate_position_registered s t pid x y z dt p hp, tracked_set,
      tracked_registered s pid p hp]
    cases hv : spec_speed_violation p x y z dt
    · rw [position_body_accept p t x y z dt hv]
      simp
    · obtain ⟨d, hd⟩ := position_body_reject p t x y z dt hv
      rw [hd]
      simp [add_violation]

/-- The tracked state across `dg_validate_damage`. -/
theorem damage_tracked (s : Engine) (t pid : Nat) (tid : Int) (dmg dist : F32) :
    tracked (dg_validate_damage s t pid tid dmg dist).2 pid = tracked s pid := by
  cases hp : s.g_players pid with
  | none => simp [dg_validate_damage, hp]
  | some p =>
    rw [dg_validate_damage_registered s t pid tid dmg dist p hp, tracked_set,
      tracked_registered s pid p hp]
    unfold validate_damage_body
    by_cases h1 : (F32.lt dmg F32.zero || F32.gt dmg p.max_damage) = true
    · simp [h1, add_violation]
    · by_cases h2 : F32.gt dist (F32.lit 100 1) = true
      · simp [h1, h2, add_violation]
      · simp [h1, h2]

/-- The tracked state across a failed `dg_validate_health`. -/
theorem health_tracked (s : Engine) (t pid : Nat) (o n m : F32)
    (h0 : (dg_validate_health s t pid o n m).1 = 0) :
    tracked (dg_validate_health s t pid o n m).2 pid = tracked s pid := by
  cases hp : s.g_players pid with
  | none => simp [dg_validate_health, hp]
  | some p =>
    rw [dg_validate_health_registered s t pid o n m p hp] at h0 ⊢
    rw [tracked_set, tracked_registered s pid p hp]
    unfold validate_health_body at h0 ⊢
    split
    · rfl
    · split
      · rfl
      · rename_i h1 h2
        simp [h1, h2] at h0

/-! ### The scenario engines -/

set_option maxRecDepth 100000 in
/-- The state of player 7 after registration. -/
theorem engine_player7_player :
    engine_player7.g_players 7 = some
      { player_id := 7, session_key := List.range 32, key_len := 32,
        last_x := F32.zero, last_y := F32.zero, last_z := F32.zero,
        last_position_time := T0, last_health := ⟨0x42C80000⟩, last_sequence := 0,
        last_packet_time := 0, violations := [], packet_count_per_second := 0,
        packet_window_start := T0, max_speed := ⟨0x41700000⟩, max_damage := ⟨0x43FA0000⟩,
        rate_limit := 100 } := by
  decide

set_option maxRecDepth 100000 in
/-- The state of player 7 after signing one packet. -/
theorem signed7_player :
    signed7.2.1.g_players 7 = some
      { player_id := 7, session_key := List.range 32, key_len := 32,
        last_x := F32.zero, last_y := F32.zero, last_z := F32.zero,
        last_position_time := T0, last_health := ⟨0x42C80000⟩, last_sequence := 1,
        last_packet_time := 0, violations := [], packet_count_per_second := 0,
        packet_window_start := T0, max_speed := ⟨0x41700000⟩, max_damage := ⟨0x43FA0000⟩,
        rate_limit := 100 } := by
  decide

set_option maxRecDepth 100000 in
/-- The state of player 3 in scenario 3. -/
theorem engine_player3_player :
    engine_player3.g_players 3 = some
      { player_id := 3, session_key := (List.range 32).map (fun i => (37 * i + 11) % 256),
        key_len := 32,
        last_x := F32.zero, last_y := F32.zero, last_z := F32.zero,
        last_position_time := T0, last_health := ⟨0x42C80000⟩, last_sequence := 0,
        last_packet_time := 0, violations := [], packet_count_per_second := 0,
        packet_window_start := T0, max_speed := ⟨0x41700000⟩, max_damage := ⟨0x43FA0000⟩,
        rate_limit := 100 } := by
  decide

set_option maxRecDepth 100000 in
/-- The state of player 5 in scenario 4. -/
theorem engine_player5_player :
    engine_player5.g_players 5 = some
      { player_id := 5, session_key := (List.range 32).map (fun i => (37 * i + 11) % 256),
        key_len := 32,
        last_x := F32.zero, last_y := F32.zero, last_z := F32.zero,
        last_position_time := T0, last_health := ⟨0x42C80000⟩, last_sequence := 0,
        last_packet_time := 0, violations := [], packet_count_per_second := 0,
        packet_window_start := T0, max_speed := ⟨0x41700000⟩, max_damage := ⟨0x43FA0000⟩,
        rate_limit := 100 } := by
  decide

/-! ## The claims -/

set_option maxRecDepth 100000 in
/-- C1 (the code departs from the claim). Scenario 1, at every clock value `now`
of the validating call: player 7 is registered with the key `0x00..0x1F`,
`dg_sign_packet` succeeds on the 16-byte zero payload and fills a header with
sequence 1, and `header || payload` has 68 bytes. `dg_validate_packet` on that
packet copies out a header with sequence 1 but returns 0: in the engine that
signed, the sequence test fires (signing has advanced the shared
`last_sequence` to 1) and one `SEQUENCE_HACK` violation of severity 2 is
recorded; in an engine that did not sign, the timestamp test fires and one
`TIMESTAMP_INVALID` violation of severity 2 is recorded. -/
theorem sign_validate_round_trip_fails (now tv : Nat) :
    signed7.1 = 1 ∧ signed7.2.2.sequence = 1 ∧ packet7.length = 68 ∧
    (dg_validate_packet signed7.2.1 now tv 7 packet7 zero_header).1 = 0 ∧
    (dg_validate_packet signed7.2.1 now tv 7 packet7 zero_header).2.2.sequence = 1 ∧
    violations_of (dg_validate_packet signed7.2.1 now tv 7 packet7 zero_header).2.1 7 =
      [⟨7, 5, 2, tv, Details.text "Invalid sequence number"⟩] ∧
    (dg_validate_packet engine_player7 now tv 7 packet7 zero_header).1 = 0 ∧
    violations_of (dg_validate_packet engine_player7 now tv 7 packet7 zero_header).2.1 7 =
      [⟨7, 7, 2, tv, Details.text "Invalid timestamp"⟩] := by
  have hlen : 56 ≤ packet7.length := by decide
  have hseq : (parse_header packet7).sequence = 1 := by decide
  refine ⟨by decide, by decide, by decide, ?_⟩
  rw [dg_validate_packet_registered _ now tv 7 packet7 zero_header _ signed7_player,
    dg_validate_packet_registered _ now tv 7 packet7 zero_header _ engine_player7_player]
  rw [body_sequence _ now tv packet7 zero_header (fresh_not_rate_limited _ now (by decide) rfl)
      hlen (by unfold sequence_rejected; rw [hseq]; decide),
    body_timestamp _ now tv packet7 zero_header (fresh_not_rate_limited _ now (by decide) rfl)
      hlen (by unfold sequence_rejected; rw [hseq]; decide)]
  simp only [violations_of_set, add_violation_window, hseq]
  simp [VIOLATION_SEQUENCE_HACK, VIOLATION_TIMESTAMP_INVALID]

/-- C2 (the code departs from the claim). For a registered player and a packet
of at least `sizeof(PacketHeader)` = 56 bytes that passes the rate-limit and the
sequence test, a signed difference `now - header.timestamp` within
`[-5000, 5000]` still makes `dg_validate_packet` return 0 and append one
`TIMESTAMP_INVALID` (7) violation of severity 2: the comparison is carried out
in `uint64_t`. -/
theorem timestamp_in_range_rejected (s : Engine) (now tv pid : Nat) (data : List Nat)
    (h : PacketHeader) (p : PlayerState) (hp : s.g_players pid = some p)
    (hr : ¬ rate_limit_exceeded p now) (hl : 56 ≤ data.length)
    (hs : ¬ sequence_rejected p data)
    (_hd : -5000 ≤ sub_i64 (to_i64 now) (to_i64 (parse_header data).timestamp) ∧
      sub_i64 (to_i64 now) (to_i64 (parse_header data).timestamp) ≤ 5000) :
    (dg_validate_packet s now tv pid data h).1 = 0 ∧
    violations_of (dg_validate_packet s now tv pid data h).2.1 pid =
      p.violations ++ [⟨p.player_id, 7, 2, tv, Details.text "Invalid timestamp"⟩] := by
  rw [dg_validate_packet_registered s now tv pid data h p hp,
    body_timestamp p now tv data h hr hl hs]
  simp only [violations_of_set, add_violation_window]
  simp [VIOLATION_TIMESTAMP_INVALID]

set_option maxRecDepth 100000 in
/-- C2 at the packet of scenario 1 in the layout the code reads (72 bytes),
validated at the signing time by an engine that did not sign: the difference is
0, checksum and signature of the payload behind the 56 header bytes are valid,
and the packet is rejected with `TIMESTAMP_INVALID`. -/
theorem timestamp_in_range_rejected_witness :
    packet7_padded.length = 72 ∧
    sub_i64 (to_i64 T0) (to_i64 (parse_header packet7_padded).timestamp) = 0 ∧
    fnv1a_hash (packet7_padded.drop 56) = (parse_header packet7_padded).checksum ∧
    verify_signature (packet7_padded.drop 56) (List.range 32)
      (parse_header packet7_padded).signature = true ∧
    (dg_validate_packet engine_player7 T0 T0 7 packet7_padded zero_header).1 = 0 ∧
    violations_of (dg_validate_packet engine_player7 T0 T0 7 packet7_padded zero_header).2.1 7 =
      [⟨7, 7, 2, T0, Details.text "Invalid timestamp"⟩] :=
  ⟨by decide, by decide, by decide, by decide,
    timestamp_in_range_rejected engine_player7 T0 T0 7 packet7_padded zero_header _
      engine_player7_player (by decide) (by decide) (by decide) (by decide)⟩

/-- C3, amended. For every player, a failure (0) of `dg_validate_packet`,
`dg_validate_position`, `dg_validate_damage` or `dg_validate_health` leaves the
tracked last position, last sequence and last health as they were.
`dg_validate_action` on a null action leaves them as they were; on an action, a
failure leaves last sequence and last health as they were, and leaves the last
position as it was when the position sub-check failed, while it is the action's
position when the position sub-check succeeded (and the damage sub-check
failed). -/
theorem failure_preserves_tracked (s : Engine) (pid : Nat) :
    (∀ now tv data h, (dg_validate_packet s now tv pid data h).1 = 0 →
      tracked (dg_validate_packet s now tv pid data h).2.1 pid = tracked s pid) ∧
    (∀ t x y z dt, (dg_validate_position s t pid x y z dt).1 = 0 →
      tracked (dg_validate_position s t pid x y z dt).2 pid = tracked s pid) ∧
    (∀ t tid dmg dist, (dg_validate_damage s t pid tid dmg dist).1 = 0 →
      tracked (dg_validate_damage s t pid tid dmg dist).2 pid = tracked s pid) ∧
    (∀ t o n m, (dg_validate_health s t pid o n m).1 = 0 →
      tracked (dg_validate_health s t pid o n m).2 pid = tracked s pid) ∧
    (∀ t1 t2 rep, (dg_validate_action s t1 t2 pid none rep).1 = 0 ∧
      tracked (dg_validate_action s t1 t2 pid none rep).2.1 pid = tracked s pid) ∧
    (∀ t1 t2 a rep, (dg_validate_action s t1 t2 pid (some a) rep).1 = 0 →
      (tracked (dg_validate_action s t1 t2 pid (some a) rep).2.1 pid).map Prod.snd =
        (tracked s pid).map Prod.snd ∧
      ((dg_validate_position s t1 pid a.pos_x a.pos_y a.pos_z (F32.lit 16 1000)).1 = 0 →
        tracked (dg_validate_action s t1 t2 pid (some a) rep).2.1 pid = tracked s pid) ∧
      ((dg_validate_position s t1 pid a.pos_x a.pos_y a.pos_z (F32.lit 16 1000)).1 ≠ 0 →
        (tracked (dg_validate_action s t1 t2 pid (some a) rep).2.1 pid).map Prod.fst =
          some (a.pos_x, a.pos_y, a.pos_z))) := by
  refine ⟨fun now tv data h _ => packet_tracked s now tv pid data h,
    fun t x y z dt h0 => (position_tracked s t pid x y z dt).2.1 h0,
    fun t tid dmg dist _ => damage_tracked s t pid tid dmg dist,
    fun t o n m h0 => health_tracked s t pid o n m h0,
    fun t1 t2 rep => ⟨rfl, rfl⟩, fun t1 t2 a rep _ => ?_⟩
  have hpos := position_tracked s t1 pid a.pos_x a.pos_y a.pos_z (F32.lit 16 1000)
  have hact : tracked (dg_validate_action s t1 t2 pid (some a) rep).2.1 pid =
      tracked (dg_validate_position s t1 pid a.pos_x a.pos_y a.pos_z (F32.lit 16 1000)).2
        pid := by
    unfold dg_validate_action
    simp only []
    split
    · exact damage_tracked _ t2 pid _ _ _
    · rfl
  rw [hact]
  exact ⟨hpos.1, hpos.2.1, fun h => (hpos.2.2 h).2⟩

set_option maxRecDepth 100000 in
/-- C3, amended, at scenario 3: the rejected move of player 3 leaves the tracked
state as it was. -/
theorem failure_preserves_tracked_witness :
    (dg_validate_position engine_player3 T0 3 (F32.lit 100 1) F32.zero F32.zero
      (F32.lit 1 10)).1 = 0 ∧
    tracked (dg_validate_position engine_player3 T0 3 (F32.lit 100 1) F32.zero F32.zero
      (F32.lit 1 10)).2 3 = tracked engine_player3 3 :=
  ⟨by decide, (failure_preserves_tracked engine_player3 3).2.1 T0 (F32.lit 100 1) F32.zero
    F32.zero (F32.lit 1 10) (by decide)⟩

set_option maxRecDepth 100000 in
/-- C3 as stated fails: for the registered player 3 at the origin, an action
that moves to `(0.5, 0, 0)` with damage 1000 makes `dg_validate_action` return 0
(the damage check fails), yet the last position has become `(0.5, 0, 0)`. -/
theorem action_failure_moves_position :
    (engine_player3.g_players 3).isSome = true ∧
    (dg_validate_action engine_player3 T0 T0 3 (some action_step_overdamage) none).1 = 0 ∧
    tracked engine_player3 3 = some ((⟨0⟩, ⟨0⟩, ⟨0⟩), 0, ⟨0x42C80000⟩) ∧
    tracked (dg_validate_action engine_player3 T0 T0 3 (some action_step_overdamage) none).2.1 3 =
      some ((⟨0x3F000000⟩, ⟨0⟩, ⟨0⟩), 0, ⟨0x42C80000⟩) := by
  decide

/-- C4, amended. For a registered player and a packet shorter than 52 bytes,
`dg_validate_packet` returns 0 and leaves `out_header` alone; the violation
sequence is unchanged when the rate limit is not exceeded by the call, and
otherwise exactly one `RATE_LIMIT` (8) violation of severity 1 is appended. -/
theorem short_packet_rejected (s : Engine) (now tv pid : Nat) (data : List Nat)
    (h : PacketHeader) (p : PlayerState) (hp : s.g_players pid = some p)
    (hl : data.length < 52) :
    (dg_validate_packet s now tv pid data h).1 = 0 ∧
    (dg_validate_packet s now tv pid data h).2.2 = h ∧
    (¬ rate_limit_exceeded p now →
      violations_of (dg_validate_packet s now tv pid data h).2.1 pid = p.violations) ∧
    (rate_limit_exceeded p now →
      violations_of (dg_validate_packet s now tv pid data h).2.1 pid =
        p.violations ++ [⟨p.player_id, 8, 1, tv, Details.text "Rate limit exceeded"⟩]) := by
  rw [dg_validate_packet_registered s now tv pid data h p hp]
  by_cases hr : rate_limit_exceeded p now
  · rw [body_rate_limited p now tv data h hr]
    simp only [violations_of_set, add_violation_window]
    simp [hr, VIOLATION_RATE_LIMIT]
  · rw [body_short p now tv data h hr (by omega)]
    simp only [violations_of_set, window_step_violations]
    simp [hr]

set_option maxRecDepth 100000 in
/-- C4, amended, at a 3-byte packet for the freshly registered player 7: the
call fails and records nothing. -/
theorem short_packet_rejected_witness :
    (dg_validate_packet engine_player7 T0 T0 7 [1, 2, 3] zero_header).1 = 0 ∧
    violations_of (dg_validate_packet engine_player7 T0 T0 7 [1, 2, 3] zero_header).2.1 7 = [] :=
  ⟨(short_packet_rejected engine_player7 T0 T0 7 [1, 2, 3] zero_header _
      engine_player7_player (by decide)).1,
    (short_packet_rejected engine_player7 T0 T0 7 [1, 2, 3] zero_header _
      engine_player7_player (by decide)).2.2.1 (by decide)⟩

set_option maxRecDepth 100000 in
/-- C4 as stated fails: after 100 packets within one second the registered
player 7 has an empty violation sequence; a further 3-byte packet in the same
second returns 0 and a `RATE_LIMIT` violation has been recorded. -/
theorem short_packet_recorded :
    (engine_flooded.g_players 7).isSome = true ∧
    ([1, 2, 3] : List Nat).length < 52 ∧
    (dg_validate_packet engine_flooded T0 T0 7 [1, 2, 3] zero_header).1 = 0 ∧
    violations_of engine_flooded 7 = [] ∧
    violations_of (dg_validate_packet engine_flooded T0 T0 7 [1, 2, 3] zero_header).2.1 7 =
      [⟨7, 8, 1, T0, Details.text "Rate limit exceeded"⟩] := by
  decide

/-- C5, amended. For a registered player whose rate limit is not exceeded by the
call and a packet of at least `sizeof(PacketHeader)` = 56 bytes,
`dg_validate_packet` fails at the sequence step
(it returns 0, appends exactly one `SEQUENCE_HACK` (5) violation of severity 2
and leaves `last_sequence` unchanged) if and only if
`header.sequence <= last_sequence` and `last_sequence > 0`; when
`last_sequence = 0` no `SEQUENCE_HACK` violation is appended, whatever the
header sequence is. -/
theorem sequence_step_iff (s : Engine) (now tv pid : Nat) (data : List Nat) (h : PacketHeader)
    (p : PlayerState) (hp : s.g_players pid = some p)
    (hr : ¬ rate_limit_exceeded p now) (hl : 56 ≤ data.length) :
    (((dg_validate_packet s now tv pid data h).1 = 0 ∧
      violations_of (dg_validate_packet s now tv pid data h).2.1 pid =
        p.violations ++ [⟨p.player_id, 5, 2, tv, Details.text "Invalid sequence number"⟩] ∧
      ((dg_validate_packet s now tv pid data h).2.1.g_players pid).map PlayerState.last_sequence =
        some p.last_sequence)
      ↔ ((parse_header data).sequence ≤ p.last_sequence ∧ p.last_sequence > 0)) ∧
    (p.last_sequence = 0 →
      ∃ vs, violations_of (dg_validate_packet s now tv pid data h).2.1 pid = p.violations ++ vs ∧
        ∀ v ∈ vs, v.violation_type ≠ 5) := by
  rw [dg_validate_packet_registered s now tv pid data h p hp]
  by_cases hs : sequence_rejected p data
  · rw [body_sequence p now tv data h hr hl hs]
    refine ⟨⟨fun _ => hs, fun _ => ⟨rfl, ?_, ?_⟩⟩, ?_⟩
    · simp only [violations_of_set, add_violation_window]
      rfl
    · simp [players_set_self, add_violation, window_step_last_sequence]
    · intro h0
      exact absurd hs.2 (by omega)
  · rw [body_timestamp p now tv data h hr hl hs]
    refine ⟨⟨fun hh => ?_, fun hh => absurd hh hs⟩,
      fun _ => ⟨[⟨p.player_id, 7, 2, tv, Details.text "Invalid timestamp"⟩], ?_, ?_⟩⟩
    · have := hh.2.1
      simp [violations_of_set, add_violation_window, VIOLATION_TIMESTAMP_INVALID] at this
    · simp only [violations_of_set, add_violation_window]
      rfl
    · simp

set_option maxRecDepth 100000 in
/-- C5, amended, at scenario 2: after signing, the stored sequence of player 7 is
1 and the 68-byte packet of sequence 1 is rejected at the sequence step. -/
theorem sequence_step_iff_witness :
    (dg_validate_packet signed7.2.1 T0 T0 7 packet7 zero_header).1 = 0 ∧
    violations_of (dg_validate_packet signed7.2.1 T0 T0 7 packet7 zero_header).2.1 7 =
      [] ++ [⟨7, 5, 2, T0, Details.text "Invalid sequence number"⟩] :=
  have h := ((sequence_step_iff signed7.2.1 T0 T0 7 packet7 zero_header _ signed7_player
    (by decide) (by decide)).1).2 (by decide)
  ⟨h.1, h.2.1⟩

set_option maxRecDepth 100000 in
/-- C5 as stated fails: player 7 is registered, its stored sequence is 1 after
signing, and the rate limit is not exceeded; the 52 header bytes of the signed
packet (and the same with three more bytes) carry sequence 1 <= 1, yet
`dg_validate_packet` returns 0 at the length test, appends no `SEQUENCE_HACK`
and leaves `out_header` unwritten. -/
theorem sequence_step_skipped_below_header_size :
    (signed7.2.1.g_players 7).map PlayerState.last_sequence = some 1 ∧
    header7_only.length = 52 ∧ (parse_header header7_only).sequence = 1 ∧
    (dg_validate_packet signed7.2.1 T0 T0 7 header7_only zero_header).1 = 0 ∧
    (dg_validate_packet signed7.2.1 T0 T0 7 header7_only zero_header).2.2 = zero_header ∧
    violations_of (dg_validate_packet signed7.2.1 T0 T0 7 header7_only zero_header).2.1 7 = [] ∧
    (header7_only ++ [0, 0, 0]).length = 55 ∧
    (dg_validate_packet signed7.2.1 T0 T0 7 (header7_only ++ [0, 0, 0]) zero_header).1 = 0 ∧
    violations_of
      (dg_validate_packet signed7.2.1 T0 T0 7 (header7_only ++ [0, 0, 0]) zero_header).2.1 7 =
      [] := by
  decide

/-- C6. A registered player has `rate_limit = 100` and a packet count of 0. In a
run of `dg_validate_packet` calls whose clock values all satisfy
`now - packet_window_start <= 1000`, the first 100 calls append no `RATE_LIMIT`
violation; the 101st returns 0, appends exactly one `RATE_LIMIT` (8) violation
of severity 1 and leaves `last_sequence` unchanged, whatever its packet is; a
following call with `now - packet_window_start > 1000` sets the window start to
its `now`, the count to 1, and appends no `RATE_LIMIT` violation. -/
theorem rate_limit_window (s : Engine) (pid : Nat) (p : PlayerState)
    (calls : List PacketCall) (c101 c102 : PacketCall)
    (hp : s.g_players pid = some p) (hlim : p.rate_limit = 100)
    (h0 : p.packet_count_per_second = 0) (hlen : calls.length = 100)
    (hw : ∀ c ∈ calls, sub_u64 c.now p.packet_window_start ≤ 1000)
    (hw101 : sub_u64 c101.now p.packet_window_start ≤ 1000)
    (hw102 : sub_u64 c102.now p.packet_window_start > 1000) :
    (∃ vs, violations_of (run_packets s pid calls) pid = p.violations ++ vs ∧
      ∀ v ∈ vs, v.violation_type ≠ 8) ∧
    (dg_validate_packet (run_packets s pid calls) c101.now c101.tv pid c101.data
      c101.out_header).1 = 0 ∧
    violations_of (dg_validate_packet (run_packets s pid calls) c101.now c101.tv pid c101.data
        c101.out_header).2.1 pid =
      violations_of (run_packets s pid calls) pid ++
        [⟨p.player_id, 8, 1, c101.tv, Details.text "Rate limit exceeded"⟩] ∧
    ((dg_validate_packet (run_packets s pid calls) c101.now c101.tv pid c101.data
        c101.out_header).2.1.g_players pid).map PlayerState.last_sequence =
      ((run_packets s pid calls).g_players pid).map PlayerState.last_sequence ∧
    ((dg_validate_packet
        (dg_validate_packet (run_packets s pid calls) c101.now c101.tv pid c101.data
          c101.out_header).2.1
        c102.now c102.tv pid c102.data c102.out_header).2.1.g_players pid).map
        (fun q => (q.packet_window_start, q.packet_count_per_second)) = some (c102.now, 1) ∧
    (∃ ws, violations_of (dg_validate_packet
        (dg_validate_packet (run_packets s pid calls) c101.now c101.tv pid c101.data
          c101.out_header).2.1
        c102.now c102.tv pid c102.data c102.out_header).2.1 pid =
      violations_of (dg_validate_packet (run_packets s pid calls) c101.now c101.tv pid c101.data
        c101.out_header).2.1 pid ++ ws ∧ ∀ v ∈ ws, v.violation_type ≠ 8) := by
  obtain ⟨q, hq, hqlim, hqk, hqw, hqid, vs, hvs, hvs8⟩ :=
    run_within_window pid calls s p hp hlim (by omega) hw
  rw [h0, hlen] at hqk
  have hws := window_step_within q c101.now (by rw [hqw]; exact hw101) (by omega)
  have hr : rate_limit_exceeded q c101.now := by
    unfold rate_limit_exceeded; rw [hws, hqlim]; simp; omega
  rw [dg_validate_packet_registered _ c101.now c101.tv pid c101.data c101.out_header q hq,
    body_rate_limited q c101.now c101.tv c101.data c101.out_header hr]
  simp only [violations_of_set, add_violation_window, violations_of_registered _ pid q hq,
    players_set_self, hq, Option.map_some']
  refine ⟨⟨vs, hvs, hvs8⟩, trivial, by rw [hqid]; rfl, ?_, ?_⟩
  · simp [add_violation, window_step_last_sequence]
  · have hw2 : sub_u64 c102.now
        (add_violation (window_step q c101.now) VIOLATION_RATE_LIMIT 1
          (Details.text "Rate limit exceeded") c101.tv).packet_window_start > 1000 := by
      rw [hws]; simp only [add_violation]; rw [hqw]; exact hw102
    have hws2 := window_step_restart _ c102.now hw2
    have hr2 : ¬ rate_limit_exceeded
        (add_violation (window_step q c101.now) VIOLATION_RATE_LIMIT 1
          (Details.text "Rate limit exceeded") c101.tv) c102.now := by
      unfold rate_limit_exceeded; rw [hws2, hws]; simp [add_violation, hqlim]
    rw [dg_validate_packet_registered _ c102.now c102.tv pid c102.data c102.out_header _
      (players_set_self _ _ _)]
    simp only [players_set_self, violations_of_set, Option.map_some']
    rcases (body_cases _ c102.now c102.tv c102.data c102.out_header hr2).2 with
      h1 | ⟨ty, sev, d, hty, h1⟩
    · rw [h1, hws2]
      exact ⟨rfl, [], by simp [add_violation, window_step_violations, window_step_player_id],
        by simp⟩
    · rw [h1, hws2]
      refine ⟨rfl, [⟨p.player_id, ty, sev, c102.tv, d⟩], ?_, ?_⟩
      · simp [add_violation, window_step_violations, window_step_player_id, hqid]
      · intro v hv
        simp at hv
        rw [hv]; exact hty

set_option maxRecDepth 100000 in
/-- C6 at scenario 5: player 7 receives 100 packets at the registration time
(none is rate-limited), the 101st one second later fails with `RATE_LIMIT`, and
a call one millisecond after that restarts the window with a count of 1. -/
theorem rate_limit_window_witness :
    violations_of engine_flooded 7 = [] ∧
    (dg_validate_packet engine_flooded (T0 + 1000) T0 7 packet7 zero_header).1 = 0 ∧
    violations_of (dg_validate_packet engine_flooded (T0 + 1000) T0 7 packet7
        zero_header).2.1 7 =
      violations_of engine_flooded 7 ++ [⟨7, 8, 1, T0, Details.text "Rate limit exceeded"⟩] ∧
    ((dg_validate_packet
        (dg_validate_packet engine_flooded (T0 + 1000) T0 7 packet7 zero_header).2.1
        (T0 + 1001) T0 7 [] zero_header).2.1.g_players 7).map
        (fun q => (q.packet_window_start, q.packet_count_per_second)) = some (T0 + 1001, 1) :=
  have h := rate_limit_window engine_player7 7 _
    (List.replicate 100 ⟨T0, T0, [], zero_header⟩) ⟨T0 + 1000, T0, packet7, zero_header⟩
    ⟨T0 + 1001, T0, [], zero_header⟩ engine_player7_player rfl rfl (by decide)
    (by intro c hc; rw [List.eq_of_mem_replicate hc]; decide) (by decide) (by decide)
  ⟨by decide, h.2.1, h.2.2.1, h.2.2.2.2.1⟩

/-- C7, amended. For a registered player and a packet of at least
`sizeof(PacketHeader)` = 56 bytes that passes the rate-limit and the sequence
test, a signed difference
`now - header.timestamp` below -5000 or above 5000 makes `dg_validate_packet`
return 0 and append exactly one `TIMESTAMP_INVALID` (7) violation of severity 2,
with `last_sequence` and `last_packet_time` unchanged. -/
theorem timestamp_skew_rejected (s : Engine) (now tv pid : Nat) (data : List Nat)
    (h : PacketHeader) (p : PlayerState) (hp : s.g_players pid = some p)
    (hr : ¬ rate_limit_exceeded p now) (hl : 56 ≤ data.length)
    (hs : ¬ sequence_rejected p data)
    (_hd : sub_i64 (to_i64 now) (to_i64 (parse_header data).timestamp) < -5000 ∨
      5000 < sub_i64 (to_i64 now) (to_i64 (parse_header data).timestamp)) :
    (dg_validate_packet s now tv pid data h).1 = 0 ∧
    violations_of (dg_validate_packet s now tv pid data h).2.1 pid =
      p.violations ++ [⟨p.player_id, 7, 2, tv, Details.text "Invalid timestamp"⟩] ∧
    ((dg_validate_packet s now tv pid data h).2.1.g_players pid).map
        (fun q => (q.last_sequence, q.last_packet_time)) =
      some (p.last_sequence, p.last_packet_time) := by
  rw [dg_validate_packet_registered s now tv pid data h p hp,
    body_timestamp p now tv data h hr hl hs]
  simp only [violations_of_set, add_violation_window, players_set_self]
  simp [VIOLATION_TIMESTAMP_INVALID, add_violation, window_step_last_sequence,
    window_step_last_packet_time]

set_option maxRecDepth 100000 in
/-- C7, amended, at scenario 6 in the layout the code reads (72 bytes): the
header timestamp is `now + 10000`, checksum and signature of the payload behind
the 56 header bytes are valid, and the packet is rejected with
`TIMESTAMP_INVALID`. -/
theorem timestamp_skew_rejected_witness :
    (parse_header packet7_skewed).timestamp = T0 + 10000 ∧
    fnv1a_hash (packet7_skewed.drop 56) = (parse_header packet7_skewed).checksum ∧
    verify_signature (packet7_skewed.drop 56) (List.range 32)
      (parse_header packet7_skewed).signature = true ∧
    (dg_validate_packet engine_player7 T0 T0 7 packet7_skewed zero_header).1 = 0 ∧
    violations_of (dg_validate_packet engine_player7 T0 T0 7 packet7_skewed zero_header).2.1 7 =
      [⟨7, 7, 2, T0, Details.text "Invalid timestamp"⟩] :=
  ⟨by decide, by decide, by decide,
    (timestamp_skew_rejected engine_player7 T0 T0 7 packet7_skewed zero_header _
      engine_player7_player (by decide) (by decide) (by decide) (by decide)).1,
    (timestamp_skew_rejected engine_player7 T0 T0 7 packet7_skewed zero_header _
      engine_player7_player (by decide) (by decide) (by decide) (by decide)).2.1⟩

set_option maxRecDepth 100000 in
/-- C7 as stated fails: for the freshly registered player 7 the 52 header bytes
with the timestamp `now + 10000` (and the same with three more bytes) pass the
rate limit and do not meet the sequence condition, the difference is -10000,
yet `dg_validate_packet` returns 0 at the length test and appends no
`TIMESTAMP_INVALID`. -/
theorem timestamp_skew_unrecorded_below_header_size :
    (engine_player7.g_players 7).map PlayerState.last_sequence = some 0 ∧
    header7_only_skewed.length = 52 ∧
    sub_i64 (to_i64 T0) (to_i64 (parse_header header7_only_skewed).timestamp) = -10000 ∧
    (dg_validate_packet engine_player7 T0 T0 7 header7_only_skewed zero_header).1 = 0 ∧
    violations_of (dg_validate_packet engine_player7 T0 T0 7 header7_only_skewed
      zero_header).2.1 7 = [] ∧
    (header7_only_skewed ++ [0, 0, 0]).length = 55 ∧
    (dg_validate_packet engine_player7 T0 T0 7 (header7_only_skewed ++ [0, 0, 0])
      zero_header).1 = 0 ∧
    violations_of (dg_validate_packet engine_player7 T0 T0 7 (header7_only_skewed ++ [0, 0, 0])
      zero_header).2.1 7 = [] := by
  decide

/-- C8. For a registered player, `dg_validate_position` returns 0 exactly when
`speed > max_speed * 1.5` and `distance > 1.0` (`spec_speed_violation`, with
`delta_time` replaced by `0.016` when it is `<= 0`); in that case it appends
exactly one `SPEED_HACK` (1) violation of severity 2 and leaves the last
position unchanged; otherwise it returns 1, appends no violation and sets the
last position to `(x, y, z)`. -/
theorem validate_position_decision (s : Engine) (t pid : Nat) (x y z delta_time : F32)
    (p : PlayerState) (hp : s.g_players pid = some p) :
    ((dg_validate_position s t pid x y z delta_time).1 = 0 ↔
      spec_speed_violation p x y z delta_time = true) ∧
    (spec_speed_violation p x y z delta_time = true →
      (∃ d, violations_of (dg_validate_position s t pid x y z delta_time).2 pid =
        p.violations ++ [⟨p.player_id, 1, 2, t, d⟩]) ∧
      ((dg_validate_position s t pid x y z delta_time).2.g_players pid).map
        (fun q => (q.last_x, q.last_y, q.last_z)) = some (p.last_x, p.last_y, p.last_z)) ∧
    (spec_speed_violation p x y z delta_time = false →
      (dg_validate_position s t pid x y z delta_time).1 = 1 ∧
      violations_of (dg_validate_position s t pid x y z delta_time).2 pid = p.violations ∧
      ((dg_validate_position s t pid x y z delta_time).2.g_players pid).map
        (fun q => (q.last_x, q.last_y, q.last_z)) = some (x, y, z)) := by
  rw [dg_validate_position_registered s t pid x y z delta_time p hp]
  cases hv : spec_speed_violation p x y z delta_time
  · rw [position_body_accept p t x y z delta_time hv]
    simp [violations_of_set, players_set_self]
  · obtain ⟨d, hd⟩ := position_body_reject p t x y z delta_time hv
    rw [hd]
    simp only [violations_of_set, players_set_self]
    simp [add_violation]

set_option maxRecDepth 100000 in
/-- C8 at scenario 3: from `(0, 0, 0)` with `max_speed` 15,
`dg_validate_position(3, 100, 0, 0, 0.1)` returns 0, records `SPEED_HACK` with
severity 2, and the last position is still `(0, 0, 0)`. -/
theorem validate_position_decision_witness :
    (F32.lit 15 1).bits = 0x41700000 ∧ (F32.lit 100 1).bits = 0x42C80000 ∧
    (F32.lit 1 10).bits = 0x3DCCCCCD ∧
    (dg_validate_position engine_player3 T0 3 (F32.lit 100 1) F32.zero F32.zero
      (F32.lit 1 10)).1 = 0 ∧
    ((dg_validate_position engine_player3 T0 3 (F32.lit 100 1) F32.zero F32.zero
      (F32.lit 1 10)).2.g_players 3).map (fun q => (q.last_x, q.last_y, q.last_z)) =
      some (F32.zero, F32.zero, F32.zero) ∧
    (violations_of (dg_validate_position engine_player3 T0 3 (F32.lit 100 1) F32.zero F32.zero
      (F32.lit 1 10)).2 3).map (fun v => (v.violation_type, v.severity)) = [(1, 2)] :=
  have h := validate_position_decision engine_player3 T0 3 (F32.lit 100 1) F32.zero F32.zero
    (F32.lit 1 10) _ engine_player3_player
  ⟨by decide, by decide, by decide, h.1.2 (by decide), (h.2.1 (by decide)).2, by decide⟩

/-- C9. For a registered player, `dg_validate_health` (i) returns 0 and appends
one `HEALTH_HACK` (4) violation of severity 3 when
`new_health > max_health + 0.1`; (ii) otherwise returns 0 and appends one
`HEALTH_HACK` violation of severity 2 when `new_health > old_health + 50` and
`old_health > 0`; (iii) otherwise returns 1, appends nothing and sets
`last_health` to `new_health`. In (i) and (ii) `last_health` is unchanged. -/
theorem validate_health_decision (s : Engine) (t pid : Nat)
    (old_health new_health max_health : F32) (p : PlayerState)
    (hp : s.g_players pid = some p) :
    (F32.gt new_health (F32.add max_health (F32.lit 1 10)) = true →
      (dg_validate_health s t pid old_health new_health max_health).1 = 0 ∧
      (∃ d, violations_of (dg_validate_health s t pid old_health new_health max_health).2 pid =
        p.violations ++ [⟨p.player_id, 4, 3, t, d⟩]) ∧
      ((dg_validate_health s t pid old_health new_health max_health).2.g_players pid).map
        PlayerState.last_health = some p.last_health) ∧
    (F32.gt new_health (F32.add max_health (F32.lit 1 10)) = false →
      (F32.gt new_health (F32.add old_health (F32.lit 50 1)) = true ∧
        F32.gt old_health F32.zero = true) →
      (dg_validate_health s t pid old_health new_health max_health).1 = 0 ∧
      (∃ d, violations_of (dg_validate_health s t pid old_health new_health max_health).2 pid =
        p.violations ++ [⟨p.player_id, 4, 2, t, d⟩]) ∧
      ((dg_validate_health s t pid old_health new_health max_health).2.g_players pid).map
        PlayerState.last_health = some p.last_health) ∧
    (F32.gt new_health (F32.add max_health (F32.lit 1 10)) = false →
      ¬ (F32.gt new_health (F32.add old_health (F32.lit 50 1)) = true ∧
        F32.gt old_health F32.zero = true) →
      (dg_validate_health s t pid old_health new_health max_health).1 = 1 ∧
      violations_of (dg_validate_health s t pid old_health new_health max_health).2 pid =
        p.violations ∧
      ((dg_validate_health s t pid old_health new_health max_health).2.g_players pid).map
        PlayerState.last_health = some new_health) := by
  rw [dg_validate_health_registered s t pid old_health new_health max_health p hp]
  unfold validate_health_body
  refine ⟨fun h1 => ?_, fun h1 h2 => ?_, fun h1 h2 => ?_⟩
  · simp only [h1, if_true, violations_of_set, players_set_self]
    simp [add_violation, VIOLATION_HEALTH_HACK]
  · simp only [h1, h2.1, h2.2, violations_of_set, players_set_self]
    simp [add_violation, VIOLATION_HEALTH_HACK]
  · have h3 : (F32.gt new_health (F32.add old_health (F32.lit 50 1)) &&
        F32.gt old_health F32.zero) = false := by
      cases ha : F32.gt new_health (F32.add old_health (F32.lit 50 1))
      · simp
      · cases hb : F32.gt old_health F32.zero
        · simp
        · exact absurd ⟨ha, hb⟩ h2
    simp only [h1, h3, violations_of_set, players_set_self]
    simp

set_option maxRecDepth 100000 in
/-- C9 at scenario 4: `dg_validate_health(5, 10, 80, 100)` returns 0 and records
`HEALTH_HACK` with severity 2. -/
theorem validate_health_decision_witness :
    (F32.lit 10 1).bits = 0x41200000 ∧ (F32.lit 80 1).bits = 0x42A00000 ∧
    (dg_validate_health engine_player5 T0 5 (F32.lit 10 1) (F32.lit 80 1) (F32.lit 100 1)).1 = 0 ∧
    (∃ d, violations_of (dg_validate_health engine_player5 T0 5 (F32.lit 10 1) (F32.lit 80 1)
      (F32.lit 100 1)).2 5 = [] ++ [⟨5, 4, 2, T0, d⟩]) :=
  have h := (validate_health_decision engine_player5 T0 5 (F32.lit 10 1) (F32.lit 80 1)
    (F32.lit 100 1) _ engine_player5_player).2.1 (by decide) (by decide)
  ⟨by decide, by decide, h.1, h.2.1⟩

/-- C10. For a registered player, `dg_validate_damage` (i) returns 0 and appends
one `DAMAGE_HACK` (2) violation of severity 3 when `damage < 0` or
`damage > max_damage`, whatever the distance is; (ii) otherwise returns 0 and
appends one `POSITION_HACK` (3) violation of severity 2 when `distance > 100.0`;
(iii) otherwise returns 1 and leaves the whole engine state unchanged. -/
theorem validate_damage_decision (s : Engine) (t pid : Nat) (target_id : Int)
    (damage distance : F32) (p : PlayerState) (hp : s.g_players pid = some p) :
    ((F32.lt damage F32.zero = true ∨ F32.gt damage p.max_damage = true) →
      (dg_validate_damage s t pid target_id damage distance).1 = 0 ∧
      (∃ d, violations_of (dg_validate_damage s t pid target_id damage distance).2 pid =
        p.violations ++ [⟨p.player_id, 2, 3, t, d⟩])) ∧
    (¬ (F32.lt damage F32.zero = true ∨ F32.gt damage p.max_damage = true) →
      F32.gt distance (F32.lit 100 1) = true →
      (dg_validate_damage s t pid target_id damage distance).1 = 0 ∧
      (∃ d, violations_of (dg_validate_damage s t pid target_id damage distance).2 pid =
        p.violations ++ [⟨p.player_id, 3, 2, t, d⟩])) ∧
    (¬ (F32.lt damage F32.zero = true ∨ F32.gt damage p.max_damage = true) →
      F32.gt distance (F32.lit 100 1) = false →
      (dg_validate_damage s t pid target_id damage distance).1 = 1 ∧
      (dg_validate_damage s t pid target_id damage distance).2 = s) := by
  rw [dg_validate_damage_registered s t pid target_id damage distance p hp]
  unfold validate_damage_body
  refine ⟨fun h1 => ?_, fun h1 h2 => ?_, fun h1 h2 => ?_⟩
  · have h3 : (F32.lt damage F32.zero || F32.gt damage p.max_damage) = true := by
      simpa using h1
    simp only [h3, if_true, violations_of_set]
    simp [add_violation, VIOLATION_DAMAGE_HACK]
  · have h3 : (F32.lt damage F32.zero || F32.gt damage p.max_damage) = false := by
      simpa using h1
    simp only [h3, h2, violations_of_set]
    simp [add_violation, VIOLATION_POSITION_HACK]
  · have h3 : (F32.lt damage F32.zero || F32.gt damage p.max_damage) = false := by
      simpa using h1
    simp only [h3, h2]
    simp [set_same s pid p hp]

set_option maxRecDepth 100000 in
/-- C10 for player 5 with `max_damage` 500: damage 600 is a `DAMAGE_HACK` even at
distance 500, damage 20 at distance 500 is a `POSITION_HACK`, and damage 20 at
distance 30 is accepted without any change of the engine. -/
theorem validate_damage_decision_witness :
    (dg_validate_damage engine_player5 T0 5 9 (F32.lit 600 1) (F32.lit 500 1)).1 = 0 ∧
    (∃ d, violations_of (dg_validate_damage engine_player5 T0 5 9 (F32.lit 600 1)
      (F32.lit 500 1)).2 5 = [] ++ [⟨5, 2, 3, T0, d⟩]) ∧
    (dg_validate_damage engine_player5 T0 5 9 (F32.lit 20 1) (F32.lit 500 1)).1 = 0 ∧
    (∃ d, violations_of (dg_validate_damage engine_player5 T0 5 9 (F32.lit 20 1)
      (F32.lit 500 1)).2 5 = [] ++ [⟨5, 3, 2, T0, d⟩]) ∧
    (dg_validate_damage engine_player5 T0 5 9 (F32.lit 20 1) (F32.lit 30 1)).1 = 1 ∧
    (dg_validate_damage engine_player5 T0 5 9 (F32.lit 20 1) (F32.lit 30 1)).2 = engine_player5 :=
  have h1 := (validate_damage_decision engine_player5 T0 5 9 (F32.lit 600 1) (F32.lit 500 1) _
    engine_player5_player).1 (by decide)
  have h2 := (validate_damage_decision engine_player5 T0 5 9 (F32.lit 20 1) (F32.lit 500 1) _
    engine_player5_player).2.1 (by decide) (by decide)
  have h3 := (validate_damage_decision engine_player5 T0 5 9 (F32.lit 20 1) (F32.lit 30 1) _
    engine_player5_player).2.2 (by decide) (by decide)
  ⟨h1.1, h1.2, h2.1, h2.2, h3.1, h3.2⟩

/-! ## Lemmas for the primitives -/

set_option maxRecDepth 100000 in
/-- On a byte the shift expressions of the cipher are the 8-bit rotations by 3, which stay bytes and undo each other. -/
theorem rot_code_eq : ∀ x < 256,
    u8 ((x <<< 3) ||| (x >>> 5)) = rotl8_3 x ∧ u8 ((x >>> 3) ||| (x <<< 5)) = rotr8_3 x ∧
    rotl8_3 x < 256 ∧ rotr8_3 x < 256 ∧ rotr8_3 (rotl8_3 x) = x := by
  decide

/-- Truncation to `uint8_t` leaves a byte alone. -/
theorem u8_of_lt (b : Nat) (h : b < 256) : u8 b = b := by
  unfold u8; exact Nat.mod_eq_of_lt (by simpa using h)

/-- A truncated value is a byte. -/
theorem u8_lt (b : Nat) : u8 b < 256 := by
  unfold u8; exact Nat.mod_lt _ (by norm_num)

/-- The XOR of two bytes is a byte. -/
theorem xor_lt_256 (a b : Nat) (ha : a < 256) (hb : b < 256) : a ^^^ b < 256 := by
  have := @Nat.xor_lt_two_pow a b 8 (by simpa using ha) (by simpa using hb)
  simpa using this

/-- Decrypting an encrypted byte with the same key byte gives the byte back. -/
theorem byte_round_trip (b k : Nat) (hb : b < 256) :
    u8 (u8 ((u8 (u8 ((u8 b ^^^ u8 k) <<< 3 ||| (u8 b ^^^ u8 k) >>> 5)) >>> 3) |||
      (u8 (u8 ((u8 b ^^^ u8 k) <<< 3 ||| (u8 b ^^^ u8 k) >>> 5)) <<< 5)) ^^^ u8 k) = b := by
  have hx := xor_lt_256 (u8 b) (u8 k) (u8_lt b) (u8_lt k)
  obtain ⟨h1, _, h3, _, h5⟩ := rot_code_eq _ hx
  rw [h1, u8_of_lt _ h3, (rot_code_eq _ h3).2.1, h5, Nat.xor_assoc, Nat.xor_self, Nat.xor_zero,
    u8_of_lt _ (u8_lt b), u8_of_lt b hb]

/-- The decryption loop undoes the encryption loop started at the same index. -/
theorem decrypt_encrypt_loop (key : List Nat) (data : List Nat) :
    ∀ i, (∀ b ∈ data, b < 256) → decrypt_loop key i (xor_cipher_loop key i data) = data := by
  induction data with
  | nil => intro i _; rfl
  | cons b rest ih =>
    intro i hb
    simp only [xor_cipher_loop, decrypt_loop]
    rw [byte_round_trip b _ (hb b (by simp)), ih (i + 1) (fun c hc => hb c (by simp [hc]))]

/-- The encryption loop keeps the length. -/
theorem xor_cipher_loop_length (key : List Nat) (data : List Nat) :
    ∀ i, (xor_cipher_loop key i data).length = data.length := by
  induction data with
  | nil => intro i; rfl
  | cons b rest ih => intro i; simp [xor_cipher_loop, ih]

/-- The decryption loop keeps the length. -/
theorem decrypt_loop_length (key : List Nat) (data : List Nat) :
    ∀ i, (decrypt_loop key i data).length = data.length := by
  induction data with
  | nil => intro i; rfl
  | cons b rest ih => intro i; simp [decrypt_loop, ih]

/-- The byte at index `i` after the encryption loop started at index `j`. -/
theorem xor_cipher_loop_get (key : List Nat) (hk : ∀ k ∈ key, k < 256) (data : List Nat) :
    ∀ j i, (∀ b ∈ data, b < 256) → i < data.length →
      (xor_cipher_loop key j data).getD i 0 =
        rotl8_3 (data.getD i 0 ^^^ key.getD ((j + i) % key.length) 0) := by
  have hkey : ∀ n, key.getD n 0 < 256 := by
    intro n
    by_cases hn : n < key.length
    · rw [List.getD_eq_getElem _ _ hn]; exact hk _ (List.getElem_mem _)
    · rw [List.getD_eq_default _ _ (by omega)]; norm_num
  induction data with
  | nil => intro j i _ hi; simp at hi
  | cons b rest ih =>
    intro j i hb hi
    cases i with
    | zero =>
      simp only [xor_cipher_loop, List.getD_cons_zero, Nat.add_zero]
      rw [u8_of_lt b (hb b (by simp)), u8_of_lt _ (hkey _)]
      exact (rot_code_eq _ (xor_lt_256 _ _ (hb b (by simp)) (hkey _))).1
    | succ i =>
      simp only [xor_cipher_loop, List.getD_cons_succ]
      rw [ih (j + 1) i (fun c hc => hb c (by simp [hc])) (by simpa using hi)]
      have hji : j + 1 + i = j + (i + 1) := by omega
      rw [hji]

/-- The byte at index `i` after the decryption loop started at index `j`. -/
theorem decrypt_loop_get (key : List Nat) (hk : ∀ k ∈ key, k < 256) (data : List Nat) :
    ∀ j i, (∀ b ∈ data, b < 256) → i < data.length →
      (decrypt_loop key j data).getD i 0 =
        rotr8_3 (data.getD i 0) ^^^ key.getD ((j + i) % key.length) 0 := by
  have hkey : ∀ n, key.getD n 0 < 256 := by
    intro n
    by_cases hn : n < key.length
    · rw [List.getD_eq_getElem _ _ hn]; exact hk _ (List.getElem_mem _)
    · rw [List.getD_eq_default _ _ (by omega)]; norm_num
  induction data with
  | nil => intro j i _ hi; simp at hi
  | cons b rest ih =>
    intro j i hb hi
    cases i with
    | zero =>
      simp only [decrypt_loop, List.getD_cons_zero, Nat.add_zero]
      have hb0 := hb b (by simp)
      rw [u8_of_lt b hb0, u8_of_lt _ (hkey _), (rot_code_eq b hb0).2.1]
      exact u8_of_lt _ (xor_lt_256 _ _ (rot_code_eq b hb0).2.2.2.1 (hkey _))
    | succ i =>
      simp only [decrypt_loop, List.getD_cons_succ]
      rw [ih (j + 1) i (fun c hc => hb c (by simp [hc])) (by simpa using hi)]
      have hji : j + 1 + i = j + (i + 1) := by omega
      rw [hji]

/-- On bytes the loop of `fnv1a_hash` is the left fold of the specification. -/
theorem fnv1a_loop_eq_foldl (data : List Nat) :
    ∀ h, (∀ b ∈ data, b < 256) →
      fnv1a_loop data h = data.foldl (fun h b => ((h ^^^ b) * 0x01000193) % 2 ^ 32) h := by
  induction data with
  | nil => intro h _; rfl
  | cons b rest ih =>
    intro h hb
    simp only [fnv1a_loop, List.foldl_cons]
    rw [u8_of_lt b (hb b (by simp)), ih _ (fun c hc => hb c (by simp [hc]))]
    rfl

/-- On bytes `fnv1a_hash` is the FNV-1a of the specification. -/
theorem fnv1a_hash_eq_spec (data : List Nat) (hd : ∀ b ∈ data, b < 256) :
    fnv1a_hash data = spec_fnv1a data :=
  fnv1a_loop_eq_foldl data _ hd

/-- One iteration of the loop of `compute_signature`. -/
theorem signature_loop_succ (h2 n i h1 : Nat) (sig : List Nat) :
    signature_loop h2 (n + 1) i h1 sig =
      signature_loop h2 n (i + 1) (fnv1a_hash (sig ++ [signature_byte h1 h2 i]))
        (sig ++ [signature_byte h1 h2 i]) := by
  rfl

/-- The byte of one iteration, with the shifts read as wrapping arithmetic. -/
theorem code_byte_eq_spec (h1 h2 i : Nat) : signature_byte h1 h2 i = spec_sig_byte h1 h2 i := by
  simp only [signature_byte, spec_sig_byte, u8, u32, Nat.shiftLeft_eq,
    Nat.shiftRight_eq_div_pow]

/-- The first `n` bytes of the specified signature are `n` bytes. -/
theorem spec_signature_length (P K : List Nat) : ∀ n, (spec_signature P K n).length = n := by
  intro n
  induction n with
  | zero => rfl
  | succ n ih => simp [spec_signature, ih]

/-- The specified signature consists of bytes. -/
theorem spec_signature_bytes (P K : List Nat) :
    ∀ n, ∀ b ∈ spec_signature P K n, b < 256 := by
  intro n
  induction n with
  | zero => intro b hb; simp [spec_signature] at hb
  | succ n ih =>
    intro b hb
    simp only [spec_signature, List.mem_append, List.mem_singleton] at hb
    rcases hb with hb | hb
    · exact ih b hb
    · rw [hb]; unfold spec_sig_byte; exact Nat.mod_lt _ (by norm_num)

/-- From iteration `i` on, the loop of `compute_signature` extends the specified prefix of length `i` to the one of length `i + n`. -/
theorem signature_loop_eq_spec (P K : List Nat) :
    ∀ n i h1, h1 = (if i = 0 then spec_fnv1a P else spec_fnv1a (spec_signature P K i)) →
      signature_loop (spec_fnv1a K) n i h1 (spec_signature P K i) = spec_signature P K (i + n) := by
  intro n
  induction n with
  | zero => intro i h1 _; rfl
  | succ n ih =>
    intro i h1 hh
    rw [signature_loop_succ, code_byte_eq_spec]
    have hstep : spec_signature P K i ++ [spec_sig_byte h1 (spec_fnv1a K) i] =
        spec_signature P K (i + 1) := by
      rw [hh]; rfl
    rw [hstep, ih (i + 1) _ (by
      rw [fnv1a_hash_eq_spec _ (spec_signature_bytes P K (i + 1))]; simp)]
    congr 1
    omega

/-- The loop of `compute_signature` appends one byte per iteration to what is already written. -/
theorem signature_loop_prefix (h2 : Nat) :
    ∀ n i h1 sig, ∃ rest, signature_loop h2 n i h1 sig = sig ++ rest ∧ rest.length = n := by
  intro n
  induction n with
  | zero => intro i h1 sig; exact ⟨[], by simp [signature_loop], rfl⟩
  | succ n ih =>
    intro i h1 sig
    rw [signature_loop_succ]
    obtain ⟨rest, hr, hl⟩ := ih (i + 1) (fnv1a_hash (sig ++ [signature_byte h1 h2 i]))
      (sig ++ [signature_byte h1 h2 i])
    exact ⟨signature_byte h1 h2 i :: rest, by rw [hr]; simp, by simp [hl]⟩

/-- A signature has 32 bytes. -/
theorem compute_signature_length (P K : List Nat) : (compute_signature P K).length = 32 := by
  obtain ⟨rest, hr, hl⟩ := signature_loop_prefix (fnv1a_hash K) 32 0 (fnv1a_hash P) []
  unfold compute_signature
  rw [hr]; simpa using hl

/-- After iteration 0 only the first byte and the key hash enter the loop. -/
theorem compute_signature_from_first_byte (P K : List Nat) :
    compute_signature P K =
      signature_from_first_byte (fnv1a_hash K)
        (signature_byte (fnv1a_hash P) (fnv1a_hash K) 0) := by
  rfl

/-- The first byte of the signature built from a first byte is that byte. -/
theorem signature_from_first_byte_head (h2 b0 : Nat) :
    (signature_from_first_byte h2 b0).getD 0 0 = b0 := by
  obtain ⟨rest, hr, _⟩ := signature_loop_prefix h2 31 1 (fnv1a_hash [b0]) [b0]
  unfold signature_from_first_byte
  rw [hr]; rfl

/-! ## Lemmas for the registry and the invariant -/

/-- Erasing a player that is not in the map changes nothing. -/
theorem erase_absent (s : Engine) (pid : Nat) (hp : s.g_players pid = none) :
    s.erase pid = s := by
  cases s with
  | mk g k l i =>
    simp only [Engine.erase, Engine.mk.injEq, and_true]
    funext q
    by_cases hq : q = pid
    · subst hq; simp [← hp]
    · simp [hq]

/-- On a player that is not in the map `dg_validate_action` fails and changes
neither the engine nor the report buffer. -/
theorem unknown_validate_action (s : Engine) (pid : Nat) (hp : s.g_players pid = none)
    (t1 t2 : Nat) (a : Option GameAction) (rep : Option ViolationReport) :
    dg_validate_action s t1 t2 pid a rep = (0, s, rep) := by
  cases a with
  | none => rfl
  | some a =>
    have h1 : ∀ t x y z dt, dg_validate_position s t pid x y z dt = (0, s) := by
      intros; simp [dg_validate_position, hp]
    have h2 : ∀ t tid dmg dist, dg_validate_damage s t pid tid dmg dist = (0, s) := by
      intros; simp [dg_validate_damage, hp]
    have h3 : ∀ rep, dg_get_last_violation s pid rep = (0, rep) := by
      intros; simp [dg_get_last_violation, hp]
    unfold dg_validate_action
    simp only [h1, h2]
    by_cases hd : F32.gt a.damage F32.zero = true
    · cases rep <;> simp [hd, h3]
    · cases rep <;> simp [hd, h3]

/-- An engine is related to itself. -/
theorem touched_refl (s : Engine) : s.touched s :=
  ⟨rfl, fun _ p' h => ⟨p', h, rfl⟩⟩

/-- The relation composes. -/
theorem touched_trans (a b c : Engine) (h1 : a.touched b) (h2 : b.touched c) : a.touched c := by
  refine ⟨h2.1.trans h1.1, fun k p' h => ?_⟩
  obtain ⟨q, hq, hid⟩ := h2.2 k p' h
  obtain ⟨r, hr, hid2⟩ := h1.2 k q hq
  exact ⟨r, hr, hid.trans hid2⟩

/-- Writing back a state with the same id field is covered by the relation. -/
theorem touched_set (s : Engine) (pid : Nat) (p q : PlayerState)
    (hp : s.g_players pid = some p) (hid : q.player_id = p.player_id) :
    s.touched (s.set pid q) := by
  refine ⟨rfl, fun k p' h => ?_⟩
  by_cases hk : k = pid
  · subst hk
    simp only [Engine.set, if_true, Option.some.injEq] at h
    exact ⟨p, hp, by rw [← h]; exact hid⟩
  · simp only [Engine.set, hk, if_false] at h
    exact ⟨p', h, rfl⟩

/-- The invariant survives every step covered by the relation. -/
theorem wf_of_touched (s s' : Engine) (hw : s.wf) (ht : s.touched s') : s'.wf := by
  refine ⟨fun hi pid => ?_, fun pid p' hp' => ?_⟩
  · cases h : s'.g_players pid with
    | none => rfl
    | some p' =>
      obtain ⟨p, hp, _⟩ := ht.2 pid p' h
      rw [hw.1 (ht.1 ▸ hi) pid] at hp
      exact absurd hp (by simp)
  · obtain ⟨p, hp, hid⟩ := ht.2 pid p' hp'
    rw [hid]; exact hw.2 pid p hp

/-- The packet pipeline keeps the id field. -/
theorem packet_body_player_id (p : PlayerState) (now tv : Nat) (data : List Nat)
    (h : PacketHeader) : (validate_packet_body p now tv data h).2.1.player_id = p.player_id := by
  by_cases hr : rate_limit_exceeded p now
  · rw [body_rate_limited p now tv data h hr]
    exact window_step_player_id p now
  · rcases (body_cases p now tv data h hr).2 with h1 | ⟨ty, sev, d, _, h1⟩
    · rw [h1]; exact window_step_player_id p now
    · rw [h1]; exact window_step_player_id p now

/-- The position check keeps the id field. -/
theorem position_body_player_id (p : PlayerState) (t : Nat) (x y z dt : F32) :
    (validate_position_body p t x y z dt).2.player_id = p.player_id := by
  cases hv : spec_speed_violation p x y z dt
  · rw [position_body_accept p t x y z dt hv]
  · obtain ⟨d, hd⟩ := position_body_reject p t x y z dt hv
    rw [hd]; rfl

/-- The damage check either accepts and leaves the player alone, or appends a
`DAMAGE_HACK` of severity 3 or a `POSITION_HACK` of severity 2. -/
theorem damage_body_cases (p : PlayerState) (t : Nat) (dmg dist : F32) :
    validate_damage_body p t dmg dist = (1, p) ∨
    ∃ ty sev d, ((ty = 2 ∧ sev = 3) ∨ (ty = 3 ∧ sev = 2)) ∧
      validate_damage_body p t dmg dist = (0, add_violation p ty sev d t) := by
  unfold validate_damage_body
  by_cases h1 : (F32.lt dmg F32.zero || F32.gt dmg p.max_damage) = true
  · exact Or.inr ⟨2, 3, Details.fmt "Damage: %.2f, Max: %.2f" [dmg, p.max_damage],
      Or.inl ⟨rfl, rfl⟩, by simp [h1, VIOLATION_DAMAGE_HACK]⟩
  · by_cases h2 : F32.gt dist (F32.lit 100 1) = true
    · exact Or.inr ⟨3, 2, Details.fmt "Attack distance: %.2f" [dist], Or.inr ⟨rfl, rfl⟩,
        by simp [h1, h2, VIOLATION_POSITION_HACK]⟩
    · exact Or.inl (by simp [h1, h2])

/-- The damage check keeps the id field. -/
theorem damage_body_player_id (p : PlayerState) (t : Nat) (dmg dist : F32) :
    (validate_damage_body p t dmg dist).2.player_id = p.player_id := by
  rcases damage_body_cases p t dmg dist with h | ⟨ty, sev, d, _, h⟩
  · rw [h]
  · rw [h]; rfl

/-- The health check keeps the id field. -/
theorem health_body_player_id (p : PlayerState) (t : Nat) (o n m : F32) :
    (validate_health_body p t o n m).2.player_id = p.player_id := by
  unfold validate_health_body
  by_cases h1 : F32.gt n (F32.add m (F32.lit 1 10)) = true
  · simp [h1, add_violation]
  · by_cases h2 : (F32.gt n (F32.add o (F32.lit 50 1)) && F32.gt o F32.zero) = true
    · simp [h1, h2, add_violation]
    · simp [h1, h2]

/-- The relation covers `dg_validate_packet`. -/
theorem touched_validate_packet (s : Engine) (now tv pid : Nat) (data : List Nat)
    (h : PacketHeader) : s.touched (dg_validate_packet s now tv pid data h).2.1 := by
  cases hp : s.g_players pid with
  | none => simp [dg_validate_packet, hp, touched_refl]
  | some p =>
    rw [dg_validate_packet_registered s now tv pid data h p hp]
    exact touched_set s pid p _ hp (packet_body_player_id p now tv data h)

/-- The relation covers `dg_validate_position`. -/
theorem touched_validate_position (s : Engine) (t pid : Nat) (x y z dt : F32) :
    s.touched (dg_validate_position s t pid x y z dt).2 := by
  cases hp : s.g_players pid with
  | none => simp [dg_validate_position, hp, touched_refl]
  | some p =>
    rw [dg_validate_position_registered s t pid x y z dt p hp]
    exact touched_set s pid p _ hp (position_body_player_id p t x y z dt)

/-- The relation covers `dg_validate_damage`. -/
theorem touched_validate_damage (s : Engine) (t pid : Nat) (tid : Int) (dmg dist : F32) :
    s.touched (dg_validate_damage s t pid tid dmg dist).2 := by
  cases hp : s.g_players pid with
  | none => simp [dg_validate_damage, hp, touched_refl]
  | some p =>
    rw [dg_validate_damage_registered s t pid tid dmg dist p hp]
    exact touched_set s pid p _ hp (damage_body_player_id p t dmg dist)

/-- The relation covers `dg_validate_health`. -/
theorem touched_validate_health (s : Engine) (t pid : Nat) (o n m : F32) :
    s.touched (dg_validate_health s t pid o n m).2 := by
  cases hp : s.g_players pid with
  | none => simp [dg_validate_health, hp, touched_refl]
  | some p =>
    rw [dg_validate_health_registered s t pid o n m p hp]
    exact touched_set s pid p _ hp (health_body_player_id p t o n m)

/-- The engine after `dg_validate_action` on an action: the one after the
position check, or after the damage check that follows it. -/
theorem validate_action_engine (s : Engine) (t1 t2 pid : Nat) (a : GameAction)
    (rep : Option ViolationReport) :
    (dg_validate_action s t1 t2 pid (some a) rep).2.1 =
      if F32.gt a.damage F32.zero = true then
        (dg_validate_damage
          (dg_validate_position s t1 pid a.pos_x a.pos_y a.pos_z (F32.lit 16 1000)).2 t2 pid
          a.entity_id a.damage
          (F32.sqrt (F32.add (F32.mul a.pos_x a.pos_x) (F32.mul a.pos_z a.pos_z)))).2
      else (dg_validate_position s t1 pid a.pos_x a.pos_y a.pos_z (F32.lit 16 1000)).2 := by
  unfold dg_validate_action
  by_cases hd : F32.gt a.damage F32.zero = true <;> simp [hd]

/-- The relation covers `dg_validate_action`. -/
theorem touched_validate_action (s : Engine) (t1 t2 pid : Nat) (a : Option GameAction)
    (rep : Option ViolationReport) : s.touched (dg_validate_action s t1 t2 pid a rep).2.1 := by
  cases a with
  | none => exact touched_refl s
  | some a =>
    rw [validate_action_engine]
    split
    · exact touched_trans _ _ _ (touched_validate_position s t1 pid _ _ _ _)
        (touched_validate_damage _ t2 pid _ _ _)
    · exact touched_validate_position s t1 pid _ _ _ _

/-- The relation covers every call other than init, shutdown and register. -/
theorem touched_step (s : Engine) (c : Call)
    (h1 : ∀ k, c ≠ Call.init k) (h2 : c ≠ Call.shutdown)
    (h3 : ∀ t1 t2 rnd pid key, c ≠ Call.register_player t1 t2 rnd pid key) :
    s.touched (Call.step s c) := by
  cases c with
  | init k => exact absurd rfl (h1 k)
  | shutdown => exact absurd rfl h2
  | register_player t1 t2 rnd pid key => exact absurd rfl (h3 t1 t2 rnd pid key)
  | unregister_player pid =>
    refine ⟨rfl, fun k p' h => ?_⟩
    simp only [Call.step, dg_unregister_player, Engine.erase] at h
    by_cases hk : k = pid
    · simp [hk] at h
    · simp only [hk, if_false] at h; exact ⟨p', h, rfl⟩
  | validate_packet now tv pid data h => exact touched_validate_packet s now tv pid data h
  | sign_packet now pid data h =>
    simp only [Call.step]
    cases hp : s.g_players pid with
    | none => simp [dg_sign_packet, hp, touched_refl]
    | some p =>
      simp only [dg_sign_packet, hp]
      exact touched_set s pid p _ hp rfl
  | validate_action t1 t2 pid a rep => exact touched_validate_action s t1 t2 pid a rep
  | validate_position t pid x y z dt => exact touched_validate_position s t pid x y z dt
  | validate_damage t pid tid dmg dist => exact touched_validate_damage s t pid tid dmg dist
  | validate_health t pid o n m => exact touched_validate_health s t pid o n m
  | update_player_position t pid x y z =>
    simp only [Call.step, dg_update_player_position]
    cases hp : s.g_players pid with
    | none => exact touched_refl s
    | some p => exact touched_set s pid p _ hp rfl
  | update_player_health pid h =>
    simp only [Call.step, dg_update_player_health]
    cases hp : s.g_players pid with
    | none => exact touched_refl s
    | some p => exact touched_set s pid p _ hp rfl
  | get_violation_count pid => exact touched_refl s
  | get_last_violation pid rep => exact touched_refl s
  | clear_violations pid =>
    simp only [Call.step, dg_clear_violations]
    cases hp : s.g_players pid with
    | none => exact touched_refl s
    | some p => exact touched_set s pid p _ hp rfl
  | compute_checksum d => exact touched_refl s
  | encrypt_data d k => exact touched_refl s
  | decrypt_data d k => exact touched_refl s

/-- Every call of the public interface preserves the invariant. -/
theorem wf_step (s : Engine) (c : Call) (hw : s.wf) : (Call.step s c).wf := by
  cases c with
  | init k =>
    simp only [Call.step, dg_init]
    by_cases hi : s.g_initialized = true
    · simp only [hi, if_true]; exact hw
    · simp only [hi]
      exact ⟨fun h => by simp at h, fun pid p hp => hw.2 pid p hp⟩
  | shutdown =>
    exact ⟨fun _ _ => rfl, fun pid p hp => by simp [Call.step, dg_shutdown] at hp⟩
  | register_player t1 t2 rnd pid key =>
    simp only [Call.step, dg_register_player]
    by_cases hi : s.g_initialized = true
    · simp only [hi, Bool.not_true, Bool.false_eq_true, if_false]
      refine ⟨fun h => ?_, fun k p hp => ?_⟩
      · simp only [Engine.set] at h; rw [hi] at h; exact absurd h (by simp)
      · by_cases hk : k = pid
        · subst hk
          simp only [Engine.set, if_true, Option.some.injEq] at hp
          rw [← hp]
        · simp only [Engine.set, hk, if_false] at hp
          exact hw.2 k p hp
    · have hi2 : s.g_initialized = false := by simpa using hi
      simp only [hi2, Bool.not_false, if_true]
      exact hw
  | unregister_player pid =>
    exact wf_of_touched s _ hw (touched_step s _ (by simp) (by simp) (by simp))
  | validate_packet now tv pid data h =>
    exact wf_of_touched s _ hw (touched_step s _ (by simp) (by simp) (by simp))
  | sign_packet now pid data h =>
    exact wf_of_touched s _ hw (touched_step s _ (by simp) (by simp) (by simp))
  | validate_action t1 t2 pid a rep =>
    exact wf_of_touched s _ hw (touched_step s _ (by simp) (by simp) (by simp))
  | validate_position t pid x y z dt =>
    exact wf_of_touched s _ hw (touched_step s _ (by simp) (by simp) (by simp))
  | validate_damage t pid tid dmg dist =>
    exact wf_of_touched s _ hw (touched_step s _ (by simp) (by simp) (by simp))
  | validate_health t pid o n m =>
    exact wf_of_touched s _ hw (touched_step s _ (by simp) (by simp) (by simp))
  | update_player_position t pid x y z =>
    exact wf_of_touched s _ hw (touched_step s _ (by simp) (by simp) (by simp))
  | update_player_health pid h =>
    exact wf_of_touched s _ hw (touched_step s _ (by simp) (by simp) (by simp))
  | get_violation_count pid => exact hw
  | get_last_violation pid rep => exact hw
  | clear_violations pid =>
    exact wf_of_touched s _ hw (touched_step s _ (by simp) (by simp) (by simp))
  | compute_checksum d => exact hw
  | encrypt_data d k => exact hw
  | decrypt_data d k => exact hw

/-- The invariant holds at program start. -/
theorem wf_initial : Engine.initial.wf :=
  ⟨fun _ _ => rfl, fun pid p hp => by simp [Engine.initial] at hp⟩

/-- Every sequence of calls preserves the invariant. -/
theorem wf_run (calls : List Call) : ∀ s : Engine, s.wf → (run_calls s calls).wf := by
  induction calls with
  | nil => intro s hw; exact hw
  | cons c cs ih => intro s hw; exact ih _ (wf_step s c hw)

set_option maxRecDepth 100000 in
/-- The bit patterns of the defaults 100.0, 15.0, 500.0 and 0. -/
theorem default_constants :
    F32.lit 100 1 = ⟨0x42C80000⟩ ∧ DEFAULT_MAX_SPEED = ⟨0x41700000⟩ ∧
    DEFAULT_MAX_DAMAGE = ⟨0x43FA0000⟩ ∧ F32.zero = ⟨0⟩ := by
  decide

/-! ## Lemmas for the ledger and the composite validator -/

set_option maxRecDepth 100000 in
/-- The call `dg_validate_health(5, 10, 80, 100)` is rejected as a health jump on every player state. -/
theorem health_flood_step (p : PlayerState) :
    validate_health_body p T0 (F32.lit 10 1) (F32.lit 80 1) (F32.lit 100 1) =
      (0, add_violation p 4 2
        (Details.fmt "Health jump: %.2f -> %.2f" [F32.lit 10 1, F32.lit 80 1]) T0) := by
  have h1 : F32.gt (F32.lit 80 1) (F32.add (F32.lit 100 1) (F32.lit 1 10)) = false := by decide
  have h2 : F32.gt (F32.lit 80 1) (F32.add (F32.lit 10 1) (F32.lit 50 1)) = true := by decide
  have h3 : F32.gt (F32.lit 10 1) F32.zero = true := by decide
  unfold validate_health_body
  simp [h1, h2, h3, VIOLATION_HEALTH_HACK]

/-- After `n` calls of `health_flood` player 5 has `n` copies of the report. -/
theorem health_flood_state (n : Nat) :
    ∃ p, (health_flood n).g_players 5 = some p ∧ p.player_id = 5 ∧
      p.violations = List.replicate n health_flood_report := by
  induction n with
  | zero => exact ⟨_, engine_player5_player, rfl, rfl⟩
  | succ n ih =>
    obtain ⟨p, hp, hid, hv⟩ := ih
    refine ⟨add_violation p 4 2
      (Details.fmt "Health jump: %.2f -> %.2f" [F32.lit 10 1, F32.lit 80 1]) T0, ?_, hid, ?_⟩
    · simp only [health_flood]
      rw [dg_validate_health_registered _ _ _ _ _ _ p hp, health_flood_step]
      exact players_set_self _ _ _
    · simp only [add_violation, hv, hid]
      rw [List.replicate_succ']
      rfl

/-- The ledger after `n` rejected health updates: the sequence has `n` entries
and the count is `n` modulo `2^32`. -/
theorem health_flood_count (n : Nat) :
    (∃ p, (health_flood n).g_players 5 = some p) ∧
    (violations_of (health_flood n) 5).length = n ∧
    dg_get_violation_count (health_flood n) 5 = n % 2 ^ 32 := by
  obtain ⟨p, hp, _, hv⟩ := health_flood_state n
  refine ⟨⟨p, hp⟩, ?_, ?_⟩
  · rw [violations_of_registered _ 5 p hp, hv, List.length_replicate]
  · simp only [dg_get_violation_count, hp, u32]
    rw [hv, List.length_replicate]

/-- Result, engine and report of `dg_validate_action` in terms of its two sub-checks. -/
theorem validate_action_unfold (s : Engine) (t1 t2 pid : Nat) (a : GameAction)
    (rep : Option ViolationReport) :
    (F32.gt a.damage F32.zero = true →
      (dg_validate_action s t1 t2 pid (some a) rep).1 =
        (1 &&& (action_position_check s t1 pid a).1) &&& (action_damage_check s t1 t2 pid a).1 ∧
      (dg_validate_action s t1 t2 pid (some a) rep).2.1 = (action_damage_check s t1 t2 pid a).2) ∧
    (F32.gt a.damage F32.zero = false →
      (dg_validate_action s t1 t2 pid (some a) rep).1 =
        1 &&& (action_position_check s t1 pid a).1 ∧
      (dg_validate_action s t1 t2 pid (some a) rep).2.1 = (action_position_check s t1 pid a).2) ∧
    (∀ buf, rep = some buf → (dg_validate_action s t1 t2 pid (some a) rep).1 = 0 →
      (dg_validate_action s t1 t2 pid (some a) rep).2.2 =
        some (dg_get_last_violation (dg_validate_action s t1 t2 pid (some a) rep).2.1 pid buf).2) := by
  refine ⟨fun hd => ?_, fun hd => ?_, ?_⟩
  · unfold action_damage_check action_position_check action_distance dg_validate_action
    simp [hd]
  · unfold action_position_check dg_validate_action
    simp [hd]
  · intro buf hrep h0
    subst hrep
    have hdef : (dg_validate_action s t1 t2 pid (some a) (some buf)).2.2 =
        if (dg_validate_action s t1 t2 pid (some a) (some buf)).1 = 0 then
          some (dg_get_last_violation (dg_validate_action s t1 t2 pid (some a) (some buf)).2.1
            pid buf).2
        else some buf := rfl
    rw [hdef, if_pos h0]

/-- The position sub-check on a registered player: it fails and appends one
`SPEED_HACK` of severity 2, or it succeeds and leaves the violations alone. -/
theorem action_position_cases (s : Engine) (t1 pid : Nat) (a : GameAction) (p : PlayerState)
    (hp : s.g_players pid = some p) :
    ∃ q, (action_position_check s t1 pid a).2 = s.set pid q ∧ q.player_id = p.player_id ∧
      (((action_position_check s t1 pid a).1 = 0 ∧
          ∃ d, q.violations = p.violations ++ [⟨p.player_id, 1, 2, t1, d⟩]) ∨
        ((action_position_check s t1 pid a).1 = 1 ∧ q.violations = p.violations)) := by
  unfold action_position_check
  rw [dg_validate_position_registered s t1 pid _ _ _ _ p hp]
  cases hv : spec_speed_violation p a.pos_x a.pos_y a.pos_z (F32.lit 16 1000)
  · rw [position_body_accept p t1 _ _ _ _ hv]
    exact ⟨_, rfl, rfl, Or.inr ⟨rfl, rfl⟩⟩
  · obtain ⟨d, hd⟩ := position_body_reject p t1 _ _ _ _ hv
    rw [hd]
    exact ⟨_, rfl, rfl, Or.inl ⟨rfl, d, rfl⟩⟩

/-- The damage check on a registered player: it fails and appends one
`DAMAGE_HACK` of severity 3 or `POSITION_HACK` of severity 2, or it succeeds and
leaves the player alone. -/
theorem damage_check_cases (s : Engine) (t pid : Nat) (tid : Int) (dmg dist : F32)
    (q : PlayerState) (hq : s.g_players pid = some q) :
    ((dg_validate_damage s t pid tid dmg dist).1 = 0 ∧
      ∃ ty sev d, ((ty = 2 ∧ sev = 3) ∨ (ty = 3 ∧ sev = 2)) ∧
        violations_of (dg_validate_damage s t pid tid dmg dist).2 pid =
          q.violations ++ [⟨q.player_id, ty, sev, t, d⟩]) ∨
    ((dg_validate_damage s t pid tid dmg dist).1 = 1 ∧
      violations_of (dg_validate_damage s t pid tid dmg dist).2 pid = q.violations) := by
  rw [dg_validate_damage_registered s t pid tid dmg dist q hq]
  rcases damage_body_cases q t dmg dist with h | ⟨ty, sev, d, hts, h⟩
  · rw [h]; exact Or.inr ⟨rfl, violations_of_set _ _ _⟩
  · rw [h]; exact Or.inl ⟨rfl, ty, sev, d, hts, violations_of_set _ _ _⟩

/-- The report read by `dg_get_last_violation` is the last one of the sequence. -/
theorem last_violation_of_append (s : Engine) (pid : Nat) (buf : ViolationReport)
    (vs : List ViolationReport) (v : ViolationReport)
    (h : violations_of s pid = vs ++ [v]) : (dg_get_last_violation s pid buf).2 = v := by
  unfold violations_of at h
  unfold dg_get_last_violation
  cases hp : s.g_players pid with
  | none => rw [hp] at h; simp at h
  | some p => rw [hp] at h; simp at h; simp [h]

/-! ## The claims, continued -/

/-- C11, amended. For a registered player and a non-null action,
`dg_validate_action` returns 0 or 1, and 1 if and only if the position check
with `delta_time` 0.016 succeeds and (`action.damage > 0` does not hold, or the
damage check with distance `sqrt(pos_x^2 + pos_z^2)` succeeds). When
`action.damage > 0` the damage check is run on the engine left by the position
check, also when that check failed; when both fail, two violations are appended,
`SPEED_HACK` of severity 2 and then the violation of the damage check. Whenever
the result is 0 and a report buffer is given, the buffer receives the last
violation appended during the call. -/
theorem validate_action_composite (s : Engine) (t1 t2 pid : Nat) (a : GameAction)
    (rep : Option ViolationReport) (p : PlayerState) (hp : s.g_players pid = some p) :
    ((dg_validate_action s t1 t2 pid (some a) rep).1 = 1 ↔
      (action_position_check s t1 pid a).1 = 1 ∧
      (F32.gt a.damage F32.zero = false ∨ (action_damage_check s t1 t2 pid a).1 = 1)) ∧
    ((dg_validate_action s t1 t2 pid (some a) rep).1 = 0 ∨
      (dg_validate_action s t1 t2 pid (some a) rep).1 = 1) ∧
    (F32.gt a.damage F32.zero = true →
      (dg_validate_action s t1 t2 pid (some a) rep).2.1 = (action_damage_check s t1 t2 pid a).2) ∧
    ((action_position_check s t1 pid a).1 = 0 → F32.gt a.damage F32.zero = true →
      (action_damage_check s t1 t2 pid a).1 = 0 →
      ∃ d1 ty sev d2, ((ty = 2 ∧ sev = 3) ∨ (ty = 3 ∧ sev = 2)) ∧
        violations_of (dg_validate_action s t1 t2 pid (some a) rep).2.1 pid =
          p.violations ++ [⟨p.player_id, 1, 2, t1, d1⟩, ⟨p.player_id, ty, sev, t2, d2⟩]) ∧
    ((dg_validate_action s t1 t2 pid (some a) rep).1 = 0 → ∀ buf, rep = some buf →
      ∃ vs v, violations_of (dg_validate_action s t1 t2 pid (some a) rep).2.1 pid =
          p.violations ++ vs ++ [v] ∧
        (dg_validate_action s t1 t2 pid (some a) rep).2.2 = some v) := by
  obtain ⟨hgt, hle, hrep⟩ := validate_action_unfold s t1 t2 pid a rep
  obtain ⟨q, hq, hqid, hpos⟩ := action_position_cases s t1 pid a p hp
  have hdmg := damage_check_cases (action_position_check s t1 pid a).2 t2 pid a.entity_id
    a.damage (action_distance a) q (by rw [hq]; exact players_set_self _ _ _)
  have hdmg' : ((action_damage_check s t1 t2 pid a).1 = 0 ∧
      ∃ ty sev d, ((ty = 2 ∧ sev = 3) ∨ (ty = 3 ∧ sev = 2)) ∧
        violations_of (action_damage_check s t1 t2 pid a).2 pid =
          q.violations ++ [⟨q.player_id, ty, sev, t2, d⟩]) ∨
      ((action_damage_check s t1 t2 pid a).1 = 1 ∧
        violations_of (action_damage_check s t1 t2 pid a).2 pid = q.violations) := hdmg
  have hposv : violations_of (action_position_check s t1 pid a).2 pid = q.violations := by
    rw [hq]; exact violations_of_set _ _ _
  cases hd : F32.gt a.damage F32.zero
  · -- the damage check is skipped
    obtain ⟨hret, heng⟩ := hle hd
    rcases hpos with ⟨hp0, d, hv⟩ | ⟨hp1, hv⟩
    · refine ⟨?_, Or.inl (by rw [hret, hp0]; rfl), fun h => by simp at h, fun _ h => by simp at h,
        fun _ buf hb => ?_⟩
      · rw [hret, hp0]; simp
      · have hvio : violations_of (dg_validate_action s t1 t2 pid (some a) rep).2.1 pid =
            p.violations ++ [] ++ [⟨p.player_id, 1, 2, t1, d⟩] := by
          rw [heng, hposv, hv]; simp
        exact ⟨[], _, hvio, by
          rw [hrep buf hb (by rw [hret, hp0]; rfl), last_violation_of_append _ _ _ _ _ hvio]⟩
    · refine ⟨?_, Or.inr (by rw [hret, hp1]; rfl), fun h => by simp at h,
        fun h => by rw [hp1] at h; simp at h, fun h0 => ?_⟩
      · rw [hret, hp1]; simp
      · rw [hret, hp1] at h0; simp at h0
  · -- the damage check runs
    obtain ⟨hret, heng⟩ := hgt hd
    rcases hpos with ⟨hp0, d1, hv⟩ | ⟨hp1, hv⟩
    · rcases hdmg' with ⟨hd0, ty, sev, d2, hts, hdv⟩ | ⟨hd1, hdv⟩
      · have hvio : violations_of (dg_validate_action s t1 t2 pid (some a) rep).2.1 pid =
            p.violations ++ [⟨p.player_id, 1, 2, t1, d1⟩] ++ [⟨p.player_id, ty, sev, t2, d2⟩] := by
          rw [heng, hdv, hv, hqid]
        refine ⟨?_, Or.inl (by rw [hret, hp0, hd0]; rfl), fun _ => heng,
          fun _ _ _ => ⟨d1, ty, sev, d2, hts, by rw [hvio]; simp⟩, fun _ buf hb => ?_⟩
        · rw [hret, hp0, hd0]; simp
        · exact ⟨_, _, hvio, by
            rw [hrep buf hb (by rw [hret, hp0, hd0]; rfl),
              last_violation_of_append _ _ _ _ _ hvio]⟩
      · have hvio : violations_of (dg_validate_action s t1 t2 pid (some a) rep).2.1 pid =
            p.violations ++ [] ++ [⟨p.player_id, 1, 2, t1, d1⟩] := by
          rw [heng, hdv, hv]; simp
        refine ⟨?_, Or.inl (by rw [hret, hp0, hd1]; rfl), fun _ => heng,
          fun _ _ h => by rw [hd1] at h; simp at h, fun _ buf hb => ?_⟩
        · rw [hret, hp0, hd1]; simp
        · exact ⟨_, _, hvio, by
            rw [hrep buf hb (by rw [hret, hp0, hd1]; rfl),
              last_violation_of_append _ _ _ _ _ hvio]⟩
    · rcases hdmg' with ⟨hd0, ty, sev, d2, hts, hdv⟩ | ⟨hd1, hdv⟩
      · have hvio : violations_of (dg_validate_action s t1 t2 pid (some a) rep).2.1 pid =
            p.violations ++ [] ++ [⟨p.player_id, ty, sev, t2, d2⟩] := by
          rw [heng, hdv, hv, hqid]; simp
        refine ⟨?_, Or.inl (by rw [hret, hp1, hd0]; rfl), fun _ => heng,
          fun h => by rw [hp1] at h; simp at h, fun _ buf hb => ?_⟩
        · rw [hret, hp1, hd0]; simp
        · exact ⟨_, _, hvio, by
            rw [hrep buf hb (by rw [hret, hp1, hd0]; rfl),
              last_violation_of_append _ _ _ _ _ hvio]⟩
      · refine ⟨?_, Or.inr (by rw [hret, hp1, hd1]; rfl), fun _ => heng,
          fun h => by rw [hp1] at h; simp at h, fun h0 => ?_⟩
        · rw [hret, hp1, hd1]; simp
        · rw [hret, hp1, hd1] at h0; simp at h0

set_option maxRecDepth 100000 in
/-- C11, amended, for player 3 at the origin and an action that jumps to
`(300, 0, 0)` with damage 1000: both sub-checks fail, `SPEED_HACK` and then
`DAMAGE_HACK` are appended, and the report buffer receives the `DAMAGE_HACK`. -/
theorem validate_action_composite_witness :
    (dg_validate_action engine_player3 T0 (T0 + 1) 3 (some action_jump_overdamage)
      (some ⟨0, 0, 0, 0, Details.text ""⟩)).1 = 0 ∧
    (violations_of (dg_validate_action engine_player3 T0 (T0 + 1) 3 (some action_jump_overdamage)
      (some ⟨0, 0, 0, 0, Details.text ""⟩)).2.1 3).map
        (fun v => (v.player_id, v.violation_type, v.severity, v.timestamp)) =
      [(3, 1, 2, T0), (3, 2, 3, T0 + 1)] ∧
    ((dg_validate_action engine_player3 T0 (T0 + 1) 3 (some action_jump_overdamage)
      (some ⟨0, 0, 0, 0, Details.text ""⟩)).2.2).map
        (fun v => (v.player_id, v.violation_type, v.severity, v.timestamp)) =
      some (3, 2, 3, T0 + 1) ∧
    ¬ ((action_position_check engine_player3 T0 3 action_jump_overdamage).1 = 1 ∧
      (F32.gt action_jump_overdamage.damage F32.zero = false ∨
        (action_damage_check engine_player3 T0 (T0 + 1) 3 action_jump_overdamage).1 = 1)) :=
  have h := validate_action_composite engine_player3 T0 (T0 + 1) 3 action_jump_overdamage
    (some ⟨0, 0, 0, 0, Details.text ""⟩) _ engine_player3_player
  ⟨by decide, by decide, by decide, fun hc => absurd (h.1.2 hc) (by decide)⟩

set_option maxRecDepth 100000 in
/-- C11 as stated fails: for the registered player 3 at `(200, 0, 0)` and an action
at the same place whose damage is a NaN, `dg_validate_action` returns 1 and the
position check succeeds, although `action.damage <= 0` is false and the damage
check with distance 200 fails (on the engine before and after the position
check). -/
theorem action_nan_damage_skips_check :
    (engine_player3_far.g_players 3).isSome = true ∧
    (dg_validate_action engine_player3_far T0 T0 3 (some action_nan_damage) none).1 = 1 ∧
    (dg_validate_position engine_player3_far T0 3 action_nan_damage.pos_x
      action_nan_damage.pos_y action_nan_damage.pos_z (F32.lit 16 1000)).1 = 1 ∧
    F32.le action_nan_damage.damage F32.zero = false ∧
    (dg_validate_damage engine_player3_far T0 3 action_nan_damage.entity_id
      action_nan_damage.damage (action_distance action_nan_damage)).1 = 0 ∧
    (dg_validate_damage (dg_validate_position engine_player3_far T0 3 action_nan_damage.pos_x
        action_nan_damage.pos_y action_nan_damage.pos_z (F32.lit 16 1000)).2 T0 3
      action_nan_damage.entity_id action_nan_damage.damage
      (action_distance action_nan_damage)).1 = 0 := by
  decide

/-- C12. For every byte sequence `data` and every key of at least one byte,
`dg_decrypt_data` applied to the result of `dg_encrypt_data` with the same key
returns `data`, of the same length; byte `i` of the encryption is the rotation
left by 3 of `data[i] XOR key[i mod keylen]`, and byte `i` of the decryption is
the rotation right by 3 of `data[i]`, XORed with `key[i mod keylen]`. -/
theorem cipher_round_trip (data key : List Nat) (_hlen : 1 ≤ key.length)
    (hd : ∀ b ∈ data, b < 256) (hk : ∀ k ∈ key, k < 256) :
    dg_decrypt_data (dg_encrypt_data data key) key = data ∧
    (dg_encrypt_data data key).length = data.length ∧
    (∀ i, i < data.length →
      (dg_encrypt_data data key).getD i 0 =
        rotl8_3 (data.getD i 0 ^^^ key.getD (i % key.length) 0)) ∧
    (∀ i, i < data.length →
      (dg_decrypt_data data key).getD i 0 =
        rotr8_3 (data.getD i 0) ^^^ key.getD (i % key.length) 0) := by
  refine ⟨decrypt_encrypt_loop key data 0 hd, xor_cipher_loop_length key data 0, ?_, ?_⟩
  · intro i hi
    have := xor_cipher_loop_get key hk data 0 i hd hi
    simpa [dg_encrypt_data, xor_cipher] using this
  · intro i hi
    have := decrypt_loop_get key hk data 0 i hd hi
    simpa [dg_decrypt_data] using this

set_option maxRecDepth 100000 in
/-- C12 at the four bytes `48 69 21 FF` and the key `5A C3`. -/
theorem cipher_round_trip_witness :
    dg_encrypt_data [0x48, 0x69, 0x21, 0xFF] [0x5A, 0xC3] = [0x90, 0x55, 0xDB, 0xE1] ∧
    dg_decrypt_data [0x90, 0x55, 0xDB, 0xE1] [0x5A, 0xC3] = [0x48, 0x69, 0x21, 0xFF] ∧
    dg_decrypt_data (dg_encrypt_data [0x48, 0x69, 0x21, 0xFF] [0x5A, 0xC3]) [0x5A, 0xC3] =
      [0x48, 0x69, 0x21, 0xFF] :=
  ⟨by decide, by decide,
    (cipher_round_trip [0x48, 0x69, 0x21, 0xFF] [0x5A, 0xC3] (by decide) (by decide)
      (by decide)).1⟩

/-- C13. For every payload `P` and key `K` (byte sequences),
`compute_signature(P, K)` is the 32 bytes the specification defines
(`spec_signature`: `h1 := FNV1a(P)`, `h2 := FNV1a(K)`, byte `i` from
`mix := h1 XOR (h2 << (i mod 16)) XOR (i * 0x9E3779B9)` in wrapping 32-bit
arithmetic, then `h1 := FNV1a(sig[0..i+1])`), and `verify_signature` accepts
it. -/
theorem signature_construction (P K : List Nat) (hP : ∀ b ∈ P, b < 256)
    (hK : ∀ b ∈ K, b < 256) :
    compute_signature P K = spec_signature P K 32 ∧
    (compute_signature P K).length = 32 ∧
    verify_signature P K (compute_signature P K) = true := by
  refine ⟨?_, compute_signature_length P K, ?_⟩
  · unfold compute_signature
    rw [fnv1a_hash_eq_spec K hK, fnv1a_hash_eq_spec P hP]
    have := signature_loop_eq_spec P K 32 0 (spec_fnv1a P) (by simp)
    simpa [spec_signature] using this
  · unfold verify_signature
    rw [List.take_of_length_le (by rw [compute_signature_length])]
    simp

set_option maxRecDepth 100000 in
/-- C13 at the zero payload of 16 bytes and the key `0x00..0x1F`. -/
theorem signature_construction_witness :
    compute_signature payload16 (List.range 32) =
      [206, 229, 251, 171, 173, 216, 244, 46, 89, 43, 120, 120, 224, 79, 237, 86,
        160, 8, 120, 255, 32, 98, 121, 40, 87, 105, 116, 76, 73, 154, 173, 39] ∧
    spec_signature payload16 (List.range 32) 32 = compute_signature payload16 (List.range 32) ∧
    verify_signature payload16 (List.range 32) (compute_signature payload16 (List.range 32)) =
      true :=
  have h := signature_construction payload16 (List.range 32) (by decide) (by decide)
  ⟨by decide, h.1.symm, h.2.2⟩

/-- C14. For every byte sequence, `dg_compute_checksum` is the left fold of
`h := ((h XOR b) * 0x01000193) mod 2^32` from `0x811C9DC5`; on the empty input
it is `0x811C9DC5`; and the hash of `[0x01, 0x02]` differs from the hash of
`[0x02, 0x01]`. -/
theorem checksum_is_fnv1a (data : List Nat) (hd : ∀ b ∈ data, b < 256) :
    dg_compute_checksum data =
      data.foldl (fun h b => ((h ^^^ b) * 0x01000193) % 2 ^ 32) 0x811C9DC5 ∧
    dg_compute_checksum [] = 0x811C9DC5 ∧
    dg_compute_checksum [0x01, 0x02] ≠ dg_compute_checksum [0x02, 0x01] := by
  refine ⟨fnv1a_loop_eq_foldl data _ hd, rfl, by decide⟩

/-- C14 at the one-byte input `0x61`, whose FNV-1a hash is `0xE40C292C`. -/
theorem checksum_is_fnv1a_witness :
    dg_compute_checksum [0x61] = 0xE40C292C ∧
    dg_compute_checksum [0x61] =
      [0x61].foldl (fun h b => ((h ^^^ b) * 0x01000193) % 2 ^ 32) 0x811C9DC5 :=
  ⟨by decide, (checksum_is_fnv1a [0x61] (by decide)).1⟩

/-- C15. For a registered player with stored `last_sequence` `s` and every
payload, `dg_sign_packet` returns 1 with the header `player_id` the caller's,
`sequence = (s + 1) mod 2^32`, `timestamp = now`, `checksum = FNV1a(data)` and
`signature = compute_signature(data, session_key)`; afterwards the stored
`last_sequence` is `(s + 1) mod 2^32`, no other field of the player has changed,
and no other player has changed. (The payload is only read.) -/
theorem sign_packet_fills_header (s : Engine) (now pid : Nat) (data : List Nat)
    (header : PacketHeader) (p : PlayerState) (hp : s.g_players pid = some p) :
    dg_sign_packet s now pid data header =
      (1, s.set pid { p with last_sequence := (p.last_sequence + 1) % 2 ^ 32 },
        { player_id := pid
          sequence := (p.last_sequence + 1) % 2 ^ 32
          timestamp := now
          checksum := fnv1a_hash data
          signature := compute_signature data (p.session_key.take p.key_len) }) ∧
    (∀ q, q ≠ pid → (dg_sign_packet s now pid data header).2.1.g_players q = s.g_players q) := by
  constructor
  · simp [dg_sign_packet, hp, u32]
  · intro q hq
    simp [dg_sign_packet, hp, Engine.set, hq]

set_option maxRecDepth 100000 in
/-- C15 at scenario 1: the header of the first packet signed for player 7. -/
theorem sign_packet_fills_header_witness :
    signed7.1 = 1 ∧
    signed7.2.2 = ⟨7, 1, T0, 0x69691905,
      [206, 229, 251, 171, 173, 216, 244, 46, 89, 43, 120, 120, 224, 79, 237, 86,
        160, 8, 120, 255, 32, 98, 121, 40, 87, 105, 116, 76, 73, 154, 173, 39]⟩ :=
  have h := (sign_packet_fills_header engine_player7 T0 7 payload16 zero_header _
    engine_player7_player).1
  ⟨congrArg Prod.fst h, (congrArg (fun r => r.2.2) h).trans (by decide)⟩

/-- C16. For a player id that is not a key of the player map, the validators,
`dg_sign_packet` and `dg_get_last_violation` return 0, `dg_get_violation_count`
returns 0, and these calls as well as the updaters, `dg_clear_violations` and
`dg_unregister_player` leave the engine and every output buffer as they
were. -/
theorem unknown_player_fails_cleanly (s : Engine) (pid : Nat) (hp : s.g_players pid = none) :
    (∀ now tv data h, dg_validate_packet s now tv pid data h = (0, s, h)) ∧
    (∀ now data h, dg_sign_packet s now pid data h = (0, s, h)) ∧
    (∀ t x y z dt, dg_validate_position s t pid x y z dt = (0, s)) ∧
    (∀ t tid dmg dist, dg_validate_damage s t pid tid dmg dist = (0, s)) ∧
    (∀ t o n m, dg_validate_health s t pid o n m = (0, s)) ∧
    (∀ t1 t2 a rep, dg_validate_action s t1 t2 pid a rep = (0, s, rep)) ∧
    (∀ rep, dg_get_last_violation s pid rep = (0, rep)) ∧
    dg_get_violation_count s pid = 0 ∧
    (∀ t x y z, dg_update_player_position s t pid x y z = s) ∧
    (∀ h, dg_update_player_health s pid h = s) ∧
    dg_clear_violations s pid = s ∧
    dg_unregister_player s pid = s := by
  refine ⟨?_, ?_, ?_, ?_, ?_, ?_, ?_, ?_, ?_, ?_, ?_, ?_⟩
  · intros; simp [dg_validate_packet, hp]
  · intros; simp [dg_sign_packet, hp]
  · intros; simp [dg_validate_position, hp]
  · intros; simp [dg_validate_damage, hp]
  · intros; simp [dg_validate_health, hp]
  · exact unknown_validate_action s pid hp
  · intros; simp [dg_get_last_violation, hp]
  · simp [dg_get_violation_count, hp]
  · intros; simp [dg_update_player_position, hp]
  · intros; simp [dg_update_player_health, hp]
  · simp [dg_clear_violations, hp]
  · exact erase_absent s pid hp

set_option maxRecDepth 100000 in
/-- C16 for the id 99 in the engine that knows only player 7. -/
theorem unknown_player_fails_cleanly_witness :
    engine_player7.g_players 99 = none ∧
    dg_validate_packet engine_player7 T0 T0 99 packet7 zero_header =
      (0, engine_player7, zero_header) ∧
    dg_get_violation_count engine_player7 99 = 0 ∧
    dg_unregister_player engine_player7 99 = engine_player7 :=
  have h := unknown_player_fails_cleanly engine_player7 99 (by decide)
  ⟨by decide, h.1 T0 T0 packet7 zero_header, h.2.2.2.2.2.2.2.1, h.2.2.2.2.2.2.2.2.2.2.2⟩

/-- C17. In every state reached from the initial state by a sequence of calls of
the public interface, a cleared initialized flag implies that the player map is
empty; `dg_register_player` and every validator then return 0 and leave the
engine and the output buffers as they were. -/
theorem uninitialized_rejects (s : Engine) (calls : List Call)
    (hs : s = run_calls Engine.initial calls) (hu : s.g_initialized = false) :
    (∀ pid, s.g_players pid = none) ∧
    (∀ t1 t2 rnd pid key, dg_register_player s t1 t2 rnd pid key = (0, s)) ∧
    (∀ now tv pid data h, dg_validate_packet s now tv pid data h = (0, s, h)) ∧
    (∀ t pid x y z dt, dg_validate_position s t pid x y z dt = (0, s)) ∧
    (∀ t pid tid dmg dist, dg_validate_damage s t pid tid dmg dist = (0, s)) ∧
    (∀ t pid o n m, dg_validate_health s t pid o n m = (0, s)) ∧
    (∀ t1 t2 pid a rep, dg_validate_action s t1 t2 pid a rep = (0, s, rep)) := by
  have hw : s.wf := by rw [hs]; exact wf_run calls _ wf_initial
  have hnone := hw.1 hu
  refine ⟨hnone, ?_, ?_, ?_, ?_, ?_, ?_⟩
  · intros; simp [dg_register_player, hu]
  · intro now tv pid data h; simp [dg_validate_packet, hnone pid]
  · intro t pid x y z dt; simp [dg_validate_position, hnone pid]
  · intro t pid tid dmg dist; simp [dg_validate_damage, hnone pid]
  · intro t pid o n m; simp [dg_validate_health, hnone pid]
  · intro t1 t2 pid a rep
    exact unknown_validate_action s pid (hnone pid) t1 t2 a rep

set_option maxRecDepth 100000 in
/-- C17 after init, register, a rejected move and shutdown: player 7 was in the
map before the shutdown, is gone after it, and a validator call fails. -/
theorem uninitialized_rejects_witness :
    (run_calls Engine.initial calls_until_shutdown).g_initialized = false ∧
    (run_calls Engine.initial (calls_until_shutdown.take 3)).g_initialized = true ∧
    ((run_calls Engine.initial (calls_until_shutdown.take 3)).g_players 7).isSome = true ∧
    (run_calls Engine.initial calls_until_shutdown).g_players 7 = none ∧
    (dg_validate_health (run_calls Engine.initial calls_until_shutdown) T0 7 (F32.lit 10 1)
      (F32.lit 80 1) (F32.lit 100 1)).1 = 0 :=
  have h := uninitialized_rejects (run_calls Engine.initial calls_until_shutdown)
    calls_until_shutdown rfl (by decide)
  ⟨by decide, by decide, by decide, h.1 7, congrArg Prod.fst (h.2.2.2.2.2.1 T0 7 _ _ _)⟩

/-- C18. On an initialized engine, for every player id and every supplied key of
`n >= 1` bytes, `dg_register_player` returns 1 and the player's state is the
default one: key length `min(n, 32)`, session key the first `min(n, 32)` supplied
bytes, last position `(0, 0, 0)`, last health 100.0, last sequence 0, packet
count 0, max speed 15.0, max damage 500.0, rate limit 100 and no violations,
whatever was stored for the id before; every other player is unchanged. On an
uninitialized engine the call returns 0 and changes nothing. -/
theorem register_creates_fresh_state (s : Engine) (t1 t2 : Nat) (rnd : Nat → Nat) (pid : Nat)
    (key : List Nat) :
    (s.g_initialized = true → 1 ≤ key.length →
      (dg_register_player s t1 t2 rnd pid (some key)).1 = 1 ∧
      (dg_register_player s t1 t2 rnd pid (some key)).2.g_players pid = some
        { player_id := pid
          session_key := key.take (min key.length 32) ++
            List.replicate (32 - min key.length 32) 0
          key_len := min key.length 32
          last_x := ⟨0⟩
          last_y := ⟨0⟩
          last_z := ⟨0⟩
          last_position_time := t1
          last_health := ⟨0x42C80000⟩
          last_sequence := 0
          last_packet_time := 0
          violations := []
          packet_count_per_second := 0
          packet_window_start := t2
          max_speed := ⟨0x41700000⟩
          max_damage := ⟨0x43FA0000⟩
          rate_limit := 100 } ∧
      (key.take (min key.length 32) ++ List.replicate (32 - min key.length 32) 0).take
        (min key.length 32) = key.take (min key.length 32) ∧
      (∀ q, q ≠ pid →
        (dg_register_player s t1 t2 rnd pid (some key)).2.g_players q = s.g_players q) ∧
      (dg_register_player s t1 t2 rnd pid (some key)).2.g_initialized = true) ∧
    (s.g_initialized = false →
      ∀ k, dg_register_player s t1 t2 rnd pid k = (0, s)) := by
  constructor
  · intro hi hk
    have hmin : (if key.length > 32 then 32 else key.length) = min key.length 32 := by
      split <;> omega
    have hpos : key.length > 0 := by omega
    obtain ⟨c1, c2, c3, c4⟩ := default_constants
    refine ⟨by simp [dg_register_player, hi], ?_, ?_, ?_, ?_⟩
    · simp [dg_register_player, hi, Engine.set, hmin, hpos, c1, c2, c3, c4, DEFAULT_RATE_LIMIT]
    · rw [List.take_append_of_le_length (by simp), List.take_take]; simp
    · intro q hq
      simp [dg_register_player, hi, Engine.set, hq]
    · simp [dg_register_player, hi, Engine.set]
  · intro hi k
    simp [dg_register_player, hi]

set_option maxRecDepth 100000 in
/-- C18 for player 7 with 100 counted packets, registered again with a key of 40
bytes: the key is cut to 32 bytes and the count is 0 again; on the initial
engine the call fails. -/
theorem register_creates_fresh_state_witness :
    (dg_register_player engine_flooded T0 T0 (fun _ => 0) 7 (some (List.range 40))).1 = 1 ∧
    ((engine_flooded.g_players 7).map
      (fun p => (p.packet_count_per_second, p.violations.length))) = some (100, 0) ∧
    ((dg_register_player engine_flooded T0 T0 (fun _ => 0) 7
      (some (List.range 40))).2.g_players 7).map
      (fun p => (p.key_len, p.session_key, p.packet_count_per_second, p.last_sequence)) =
      some (32, List.range 32, 0, 0) ∧
    dg_register_player Engine.initial T0 T0 (fun _ => 0) 7 (some (List.range 40)) =
      (0, Engine.initial) :=
  have h := register_creates_fresh_state engine_flooded T0 T0 (fun _ => 0) 7 (List.range 40)
  ⟨(h.1 (by decide) (by decide)).1, by decide,
    by rw [(h.1 (by decide) (by decide)).2.1]; decide,
    (register_creates_fresh_state Engine.initial T0 T0 (fun _ => 0) 7 (List.range 40)).2 rfl _⟩

/-- C19, amended. For a registered player, `dg_get_violation_count` returns the
length of the violation sequence modulo `2^32` (the length itself while it is
below `2^32`); `dg_get_last_violation` returns 0, writing nothing, if and only if
the sequence is empty, and otherwise returns 1 with the report appended last;
right after a report of type `t` and severity `s` has been recorded for the
player, it yields that report, whose `player_id` is the player's id in every
reachable engine; after `dg_clear_violations` the count is 0 and
`dg_get_last_violation` returns 0. -/
theorem ledger_accessors (s : Engine) (pid : Nat) (p : PlayerState)
    (hp : s.g_players pid = some p) :
    dg_get_violation_count s pid = p.violations.length % 2 ^ 32 ∧
    (p.violations.length < 2 ^ 32 → dg_get_violation_count s pid = p.violations.length) ∧
    (∀ rep, (dg_get_last_violation s pid rep).1 = 0 ↔ p.violations = []) ∧
    (∀ rep, p.violations = [] → dg_get_last_violation s pid rep = (0, rep)) ∧
    (∀ rep vs v, p.violations = vs ++ [v] → dg_get_last_violation s pid rep = (1, v)) ∧
    (∀ rep q ty sev d t,
      dg_get_last_violation (s.set pid (add_violation q ty sev d t)) pid rep =
        (1, ⟨q.player_id, ty, sev, t, d⟩)) ∧
    (∀ calls, s = run_calls Engine.initial calls → p.player_id = pid) ∧
    dg_get_violation_count (dg_clear_violations s pid) pid = 0 ∧
    (∀ rep, dg_get_last_violation (dg_clear_violations s pid) pid rep = (0, rep)) := by
  refine ⟨by simp [dg_get_violation_count, hp, u32], ?_, ?_, ?_, ?_, ?_, ?_, ?_, ?_⟩
  · intro h
    simp only [dg_get_violation_count, hp, u32]
    exact Nat.mod_eq_of_lt h
  · intro rep
    simp only [dg_get_last_violation, hp]
    cases hv : p.violations.getLast? with
    | none => simpa using hv
    | some v =>
      constructor
      · intro h10; simp at h10
      · intro he
        rw [he] at hv
        simp at hv
  · intro rep he
    simp [dg_get_last_violation, hp, he]
  · intro rep vs v he
    simp [dg_get_last_violation, hp, he]
  · intro rep q ty sev d t
    simp [dg_get_last_violation, Engine.set, add_violation]
  · intro calls hs
    have hw : s.wf := by rw [hs]; exact wf_run calls _ wf_initial
    exact hw.2 pid p hp
  · simp [dg_get_violation_count, dg_clear_violations, hp, Engine.set, u32]
  · intro rep
    simp [dg_get_last_violation, dg_clear_violations, hp, Engine.set]

set_option maxRecDepth 100000 in
/-- C19, amended, after three rejected health updates of player 5: the count is 3,
the last report is the `HEALTH_HACK` of severity 2, and after clearing the
ledger is empty. -/
theorem ledger_accessors_witness :
    dg_get_violation_count (health_flood 3) 5 = 3 ∧
    dg_get_last_violation (health_flood 3) 5 ⟨0, 0, 0, 0, Details.text ""⟩ =
      (1, health_flood_report) ∧
    dg_get_violation_count (dg_clear_violations (health_flood 3) 5) 5 = 0 ∧
    dg_get_last_violation (dg_clear_violations (health_flood 3) 5) 5
      ⟨0, 0, 0, 0, Details.text ""⟩ = (0, ⟨0, 0, 0, 0, Details.text ""⟩) ∧
    dg_get_last_violation engine_player5 5 ⟨0, 0, 0, 0, Details.text ""⟩ =
      (0, ⟨0, 0, 0, 0, Details.text ""⟩) :=
  have hp : (health_flood 3).g_players 5 = some
      { player_id := 5, session_key := (List.range 32).map (fun i => (37 * i + 11) % 256),
        key_len := 32,
        last_x := F32.zero, last_y := F32.zero, last_z := F32.zero,
        last_position_time := T0, last_health := ⟨0x42C80000⟩, last_sequence := 0,
        last_packet_time := 0,
        violations := [health_flood_report, health_flood_report, health_flood_report],
        packet_count_per_second := 0,
        packet_window_start := T0, max_speed := ⟨0x41700000⟩, max_damage := ⟨0x43FA0000⟩,
        rate_limit := 100 } := by decide
  have h := ledger_accessors (health_flood 3) 5 _ hp
  ⟨h.2.1 (by decide), h.2.2.2.2.1 _ [health_flood_report, health_flood_report]
      health_flood_report rfl, h.2.2.2.2.2.2.2.1, h.2.2.2.2.2.2.2.2 _,
    (ledger_accessors engine_player5 5 _ engine_player5_player).2.2.2.1 _ rfl⟩

/-- C19 as stated fails: after `2^32` rejected health updates of the registered
player 5 the violation sequence has `2^32` entries and `dg_get_violation_count`
returns 0. -/
theorem violation_count_wraps :
    (∃ p, (health_flood 4294967296).g_players 5 = some p) ∧
    (violations_of (health_flood 4294967296) 5).length = 4294967296 ∧
    dg_get_violation_count (health_flood 4294967296) 5 = 0 :=
  ⟨(health_flood_count 4294967296).1, (health_flood_count 4294967296).2.1,
    (health_flood_count 4294967296).2.2.trans (Nat.mod_self _)⟩

/-- C20. For every key `K`: each signature is a function of its first byte and of
`FNV1a(K)`; two payloads whose signatures agree in byte 0 have the same
signature, and `verify_signature` accepts the signature of one for the other;
all signatures under `K` lie in a list of 256. -/
theorem signature_determined_by_first_byte (K : List Nat) :
    (∀ P, compute_signature P K =
      signature_from_first_byte (fnv1a_hash K) ((compute_signature P K).getD 0 0)) ∧
    (∀ P Q, (compute_signature P K).getD 0 0 = (compute_signature Q K).getD 0 0 →
      compute_signature P K = compute_signature Q K ∧
      verify_signature Q K (compute_signature P K) = true) ∧
    (∃ sigs : List (List Nat), sigs.length = 256 ∧ ∀ P, compute_signature P K ∈ sigs) := by
  have h1 : ∀ P, compute_signature P K =
      signature_from_first_byte (fnv1a_hash K) ((compute_signature P K).getD 0 0) := by
    intro P
    conv_rhs => rw [compute_signature_from_first_byte P K, signature_from_first_byte_head]
    exact compute_signature_from_first_byte P K
  refine ⟨h1, ?_, ?_⟩
  · intro P Q h
    have heq : compute_signature P K = compute_signature Q K := by
      rw [h1 P, h1 Q, h]
    refine ⟨heq, ?_⟩
    unfold verify_signature
    rw [heq, List.take_of_length_le (by rw [compute_signature_length])]
    simp
  · refine ⟨(List.range 256).map (signature_from_first_byte (fnv1a_hash K)), by simp, ?_⟩
    intro P
    rw [List.mem_map]
    refine ⟨signature_byte (fnv1a_hash P) (fnv1a_hash K) 0, ?_,
      (compute_signature_from_first_byte P K).symm⟩
    rw [List.mem_range]
    exact u8_lt _

set_option maxRecDepth 100000 in
/-- C20 for the distinct payloads `00 00` and `D3 00` under the key `0x00..0x1F`:
both signatures start with 239 and are equal. -/
theorem signature_determined_by_first_byte_witness :
    ([0, 0] : List Nat) ≠ [211, 0] ∧
    (compute_signature [0, 0] (List.range 32)).getD 0 0 = 239 ∧
    (compute_signature [211, 0] (List.range 32)).getD 0 0 = 239 ∧
    compute_signature [0, 0] (List.range 32) = compute_signature [211, 0] (List.range 32) ∧
    verify_signature [211, 0] (List.range 32) (compute_signature [0, 0] (List.range 32)) = true :=
  have h := (signature_determined_by_first_byte (List.range 32)).2.1 [0, 0] [211, 0] (by decide)
  ⟨by decide, by decide, by decide, h.1, h.2⟩

end DuckovGuard
